import Mathlib

/-!
Shallow embedding of the SARndbox dinosaur-ecosystem core
(src/Dinosaur.h, src/Dinosaur.cpp, src/DinosaurEcosystem.h,
src/DinosaurEcosystem.cpp) and verification of the specification's
claims about it.

Modelling conventions:
* C++ `Scalar`/`float` values are modelled as rationals (ℚ).
* `Geometry::mag(v)` (the Euclidean norm) is irrational on ℚ, so every
  comparison `mag u ⋈ r` in the source is embedded as the equivalent
  comparison of squares `mag2 u ⋈ r*r` (equivalent whenever `r ≥ 0`,
  which holds for every range constant and for norms themselves);
  running "nearest distance" accumulators carry the squared distance.
* The trigonometric / square-root front ends that the core consumes
  (Geometry normalization `v / mag v`, `calculateDirection`'s atan2,
  the wander draw's cos/sin, and the external terrain oracle
  `depthRenderer->getHeightAt`) are supplied through an `Env` record of
  oracle functions; general theorems are proved for every `Env`, and
  concrete runs instantiate them with exact rational realizations.
* `std::mt19937` + `randomFloat` draws are modelled as an explicit
  stream `Env.rand : ℕ → ℚ` with the draw index threaded through every
  function that consumes randomness, in source order.
-/

namespace Sarndbox

/-- C++ `Scalar` (geometry scalar type), modelled as ℚ. -/
abbrev Scalar : Type := ℚ

/-- A 3-component point/vector (`Point`/`Vector` from Types.h). -/
structure Vec3 where
  x : Scalar
  y : Scalar
  z : Scalar
deriving DecidableEq, Repr

/-- Componentwise vector addition. -/
def Vec3.add (a b : Vec3) : Vec3 := ⟨a.x + b.x, a.y + b.y, a.z + b.z⟩

/-- Componentwise vector subtraction (`other.position - dino.position` etc.). -/
def Vec3.sub (a b : Vec3) : Vec3 := ⟨a.x - b.x, a.y - b.y, a.z - b.z⟩

/-- Scalar multiple of a vector. -/
def Vec3.smul (s : Scalar) (v : Vec3) : Vec3 := ⟨s * v.x, s * v.y, s * v.z⟩

/-- Squared Euclidean magnitude; `Geometry::mag v = Real.sqrt (mag2 v)`,
so `mag u < mag v ↔ mag2 u < mag2 v` and `mag u < r ↔ mag2 u < r*r` for `r ≥ 0`. -/
def Vec3.mag2 (v : Vec3) : Scalar := v.x * v.x + v.y * v.y + v.z * v.z

/-- The zero vector, `Vector(0.0, 0.0, 0.0)`. -/
def Vec3.zero : Vec3 := ⟨0, 0, 0⟩

/-- `enum DinosaurSpecies` (Dinosaur.h). -/
inductive DinosaurSpecies where
  | TRICERATOPS
  | STEGOSAURUS
  | PARASAUROLOPHUS
  | GALLIMIMUS
  | TREX
  | VELOCIRAPTOR
  | RAPTOR_BLUE
  | RAPTOR_GREEN
  | RAPTOR_RED
deriving DecidableEq, Repr

/-- `enum DinosaurRole` (Dinosaur.h). -/
inductive DinosaurRole where
  | HERBIVORE
  | PREDATOR
deriving DecidableEq, Repr

/-- `enum DinosaurAction` (Dinosaur.h). -/
inductive DinosaurAction where
  | IDLE
  | WALK
  | RUN
  | ATTACK
  | DIE
  | TAKEDAMAGE
deriving DecidableEq, Repr

/-- `enum DinosaurDirection` (Dinosaur.h): N=0, NE, E, SE, S, SW, W, NW. -/
inductive DinosaurDirection where
  | N
  | NE
  | E
  | SE
  | S
  | SW
  | W
  | NW
deriving DecidableEq, Repr

/-- `enum DinosaurAIState` (Dinosaur.h). -/
inductive DinosaurAIState where
  | IDLE
  | WANDERING
  | GRAZING
  | FLEEING
  | HUNTING
  | ATTACKING
  | DYING
  | DEAD
deriving DecidableEq, Repr

/-- `struct DinosaurSpeciesInfo` (Dinosaur.h); the display-name and sprite-path
strings are irrelevant to the claims and omitted. -/
structure DinosaurSpeciesInfo where
  role : DinosaurRole
  walkSpeed : Scalar
  runSpeed : Scalar
  sightRange : Scalar
  attackRange : Scalar
  framesPerAction : DinosaurAction → ℤ

/-- `speciesInfoTable` + `getSpeciesInfo` (Dinosaur.cpp lines 28-153):
every entry has 15 frames for every action. -/
def getSpeciesInfo : DinosaurSpecies → DinosaurSpeciesInfo
  | .TRICERATOPS => ⟨.HERBIVORE, 2, 4, 15, 0, fun _ => 15⟩
  | .STEGOSAURUS => ⟨.HERBIVORE, 3/2, 3, 12, 0, fun _ => 15⟩
  | .PARASAUROLOPHUS => ⟨.HERBIVORE, 5/2, 5, 18, 0, fun _ => 15⟩
  | .GALLIMIMUS => ⟨.HERBIVORE, 3, 6, 20, 0, fun _ => 15⟩
  | .TREX => ⟨.PREDATOR, 3/2, 4, 25, 2, fun _ => 15⟩
  | .VELOCIRAPTOR => ⟨.PREDATOR, 5/2, 11/2, 18, 3/2, fun _ => 15⟩
  | .RAPTOR_BLUE => ⟨.PREDATOR, 5/2, 11/2, 18, 3/2, fun _ => 15⟩
  | .RAPTOR_GREEN => ⟨.PREDATOR, 5/2, 11/2, 18, 3/2, fun _ => 15⟩
  | .RAPTOR_RED => ⟨.PREDATOR, 5/2, 11/2, 18, 3/2, fun _ => 15⟩

/-- `isPredator` (Dinosaur.h). -/
def isPredator (s : DinosaurSpecies) : Bool := (getSpeciesInfo s).role = DinosaurRole.PREDATOR

/-- `isHerbivore` (Dinosaur.h). -/
def isHerbivore (s : DinosaurSpecies) : Bool := (getSpeciesInfo s).role = DinosaurRole.HERBIVORE

/-- `struct Dinosaur` (Dinosaur.h). -/
structure Dinosaur where
  species : DinosaurSpecies
  id : ℕ
  position : Vec3
  velocity : Vec3
  targetPosition : Vec3
  targetElevation : Scalar
  currentAction : DinosaurAction
  direction : DinosaurDirection
  currentFrame : ℤ
  animationTimer : Scalar
  frameTime : Scalar
  aiState : DinosaurAIState
  targetDinoId : ℕ
  stateTimer : Scalar
  respawnTimer : Scalar
  isAlive : Bool
  isVisible : Bool
  alpha : Scalar
deriving DecidableEq, Repr

/-- `DinosaurEcosystem::Bounds`. -/
structure Bounds where
  minX : Scalar
  maxX : Scalar
  minY : Scalar
  maxY : Scalar
  minZ : Scalar
  maxZ : Scalar
deriving DecidableEq, Repr

/-- The ecosystem's configuration scalars (DinosaurEcosystem constructor). -/
structure Config where
  bounds : Bounds
  lavaElevationThreshold : Scalar
  waterAvoidanceDepth : Scalar
  handFleeRadius : Scalar
  fleeDistance : Scalar
  respawnDelay : Scalar
  animationSpeed : Scalar
deriving DecidableEq, Repr

/-- Constructor defaults (DinosaurEcosystem.cpp lines 37-61). -/
def defaultConfig : Config :=
  { bounds := ⟨-1/2, 1/2, -2/5, 2/5, -20, 100⟩
    lavaElevationThreshold := -10
    waterAvoidanceDepth := 1/2
    handFleeRadius := 3/20
    fleeDistance := 1/4
    respawnDelay := 8
    animationSpeed := 12 }

/-- External/irrational collaborators supplied to the core as oracles:
* `getHeightAt x y` — the terrain oracle (`depthRenderer->getHeightAt`;
  the waterTable-midpoint and 0.0 fallbacks of `queryTerrain` are the
  constant instances of the same shape);
* `normalizeV v` — `v / Geometry::mag v`, the square-root normalization;
  the source only applies it under a positive-magnitude guard;
* `calcDir v` — `calculateDirection`'s atan2-based facing computation
  (its exact bucketing is modelled angle-level by
  `calculateDirectionAtAngle` below);
* `cos2pi u`, `sin2pi u` — `cos(u*2*M_PI)` and `sin(u*2*M_PI)` applied
  to a raw random draw `u` in `chooseWanderTarget`;
* `rand n` — the n-th value of `randomFloat(rng)`, in [0,1]. -/
structure Env where
  getHeightAt : Scalar → Scalar → Scalar
  normalizeV : Vec3 → Vec3
  calcDir : Vec3 → DinosaurDirection
  cos2pi : Scalar → Scalar
  sin2pi : Scalar → Scalar
  rand : ℕ → Scalar

/-- `DinosaurEcosystem::TerrainInfo`. -/
structure TerrainInfo where
  elevation : Scalar
  waterDepth : Scalar
  isLava : Bool
deriving DecidableEq, Repr

/-- `DinosaurEcosystem::queryTerrain` (DinosaurEcosystem.cpp lines 82-134).
Elevation comes from the oracle; `isLava` is the lava-threshold test; the
water-depth computation assigns 0.0 on both of its branches (the TODO in
the source). Debug printing is pure I/O and not modelled. -/
def queryTerrain (E : Env) (C : Config) (pos : Vec3) : TerrainInfo :=
  let elevation := E.getHeightAt pos.x pos.y
  { elevation := elevation
    waterDepth := if elevation < C.lavaElevationThreshold + 5 then 0 else 0
    isLava := elevation < C.lavaElevationThreshold }

/-- `DinosaurEcosystem::isPositionSafe` (lines 136-153). -/
def isPositionSafe (E : Env) (C : Config) (pos : Vec3) : Bool :=
  if pos.x < C.bounds.minX ∨ pos.x > C.bounds.maxX ∨
     pos.y < C.bounds.minY ∨ pos.y > C.bounds.maxY then
    false
  else
    let terrain := queryTerrain E C pos
    if terrain.isLava then false
    else if terrain.waterDepth > C.waterAvoidanceDepth then false
    else true

/-- The centroid fallback of `findValidSpawnPosition` (lines 179-190):
the bounds center, terrain-queried for elevation. -/
def spawnFallbackCenter (E : Env) (C : Config) : Vec3 :=
  let cx := (C.bounds.minX + C.bounds.maxX) * (1/2)
  let cy := (C.bounds.minY + C.bounds.maxY) * (1/2)
  ⟨cx, cy, (queryTerrain E C ⟨cx, cy, 0⟩).elevation⟩

/-- The attempt loop of `findValidSpawnPosition` (lines 161-177), with the
remaining attempt count as fuel and the random-draw index threaded. -/
def spawnSearchGo (E : Env) (C : Config) : ℕ → ℕ → Vec3 × ℕ
  | 0, σ => (spawnFallbackCenter E C, σ)
  | fuel + 1, σ =>
    let px := C.bounds.minX + E.rand σ * (C.bounds.maxX - C.bounds.minX)
    let py := C.bounds.minY + E.rand (σ + 1) * (C.bounds.maxY - C.bounds.minY)
    let terrain := queryTerrain E C ⟨px, py, 0⟩
    let pos : Vec3 := ⟨px, py, terrain.elevation⟩
    if isPositionSafe E C pos then (pos, σ + 2) else spawnSearchGo E C fuel (σ + 2)

/-- `DinosaurEcosystem::findValidSpawnPosition` (lines 155-191):
up to 100 attempts, then the centroid fallback. -/
def findValidSpawnPosition (E : Env) (C : Config) (σ : ℕ) : Vec3 × ℕ :=
  spawnSearchGo E C 100 σ

/-- One iteration of the predator loop of `findNearestThreat`
(lines 280-298); the accumulator carries the best threat position found so
far (none if no threat yet) and the squared running `distance`
(initialized to `999999²`). -/
def threatScanPredStep (d : Dinosaur) (acc : Option Vec3 × Scalar) (other : Dinosaur) :
    Option Vec3 × Scalar :=
  if other.isAlive = false ∨ other.id = d.id then acc
  else if isPredator other.species then
    let dist2 := Vec3.mag2 (Vec3.sub other.position d.position)
    let si := getSpeciesInfo d.species
    if dist2 < si.sightRange * si.sightRange ∧ dist2 < acc.2 then (some other.position, dist2)
    else acc
  else acc

/-- One iteration of the hand loop of `findNearestThreat` (lines 301-312). -/
def threatScanHandStep (C : Config) (d : Dinosaur) (acc : Option Vec3 × Scalar) (hand : Vec3) :
    Option Vec3 × Scalar :=
  let dist2 := Vec3.mag2 (Vec3.sub hand d.position)
  if dist2 < C.handFleeRadius * C.handFleeRadius ∧ dist2 < acc.2 then (some hand, dist2)
  else acc

/-- `DinosaurEcosystem::findNearestThreat` (lines 274-326).  The C++
out-parameters `(found, threatPos, distance)` are modelled as
`(Option Vec3) × Scalar` with the distance squared.  The final lava check
overwrites the result unconditionally with a threat at the agent's own
planar position (z set to the lava threshold) at fixed distance 0.01. -/
def findNearestThreat (E : Env) (C : Config) (dinos : List Dinosaur) (hands : List Vec3)
    (d : Dinosaur) : Option Vec3 × Scalar :=
  let acc0 : Option Vec3 × Scalar := (none, 999999 * 999999)
  let acc1 := dinos.foldl (threatScanPredStep d) acc0
  let acc2 := hands.foldl (threatScanHandStep C d) acc1
  let terrain := queryTerrain E C d.position
  if terrain.isLava then
    (some ⟨d.position.x, d.position.y, C.lavaElevationThreshold⟩, (1/100) * (1/100))
  else acc2

/-- One iteration of the loop of `findNearestPrey` (lines 335-352). -/
def preyScanStep (pred : Dinosaur) (acc : Option ℕ × Scalar) (other : Dinosaur) :
    Option ℕ × Scalar :=
  if other.isAlive = false ∨ other.id = pred.id then acc
  else if isHerbivore other.species then
    let dist2 := Vec3.mag2 (Vec3.sub other.position pred.position)
    let si := getSpeciesInfo pred.species
    if dist2 < si.sightRange * si.sightRange ∧ dist2 < acc.2 then (some other.id, dist2)
    else acc
  else acc

/-- `DinosaurEcosystem::findNearestPrey` (lines 328-355): nearest alive
herbivore within the predator's sight range, by id. -/
def findNearestPrey (dinos : List Dinosaur) (pred : Dinosaur) : Option ℕ × Scalar :=
  dinos.foldl (preyScanStep pred) (none, 999999 * 999999)

/-- The eight neighbor offsets probed by `calculateAvoidanceVector`, in the
C++ loop order (dx outer from -1 to 1, dy inner, skipping (0,0)). -/
def avoidanceOffsets : List (ℤ × ℤ) :=
  [(-1, -1), (-1, 0), (-1, 1), (0, -1), (0, 1), (1, -1), (1, 0), (1, 1)]

/-- Hazard-repulsion contribution of one probe offset (lines 375-398). -/
def avoidanceProbeStep (E : Env) (C : Config) (d : Dinosaur) (acc : Vec3) (o : ℤ × ℤ) : Vec3 :=
  let dx : Scalar := (o.1 : ℚ)
  let dy : Scalar := (o.2 : ℚ)
  let checkPos : Vec3 := ⟨d.position.x + dx * (3/100), d.position.y + dy * (3/100), d.position.z⟩
  let terrain := queryTerrain E C checkPos
  let acc1 := if terrain.isLava then Vec3.mk (acc.x - dx * 2) (acc.y - dy * 2) acc.z else acc
  if terrain.waterDepth > C.waterAvoidanceDepth then
    Vec3.mk (acc1.x - dx) (acc1.y - dy) acc1.z
  else acc1

/-- `DinosaurEcosystem::calculateAvoidanceVector` (lines 357-406):
boundary repulsion within a 0.05 margin, lava (2×) and deep-water (1×)
repulsion over the 8 probes at distance 0.03, normalized if the squared
magnitude exceeds 0.001². -/
def calculateAvoidanceVector (E : Env) (C : Config) (d : Dinosaur) : Vec3 :=
  let a0 : Vec3 := Vec3.zero
  let a1 := if d.position.x < C.bounds.minX + 5/100 then Vec3.mk (a0.x + 1) a0.y a0.z else a0
  let a2 := if d.position.x > C.bounds.maxX - 5/100 then Vec3.mk (a1.x - 1) a1.y a1.z else a1
  let a3 := if d.position.y < C.bounds.minY + 5/100 then Vec3.mk a2.x (a2.y + 1) a2.z else a2
  let a4 := if d.position.y > C.bounds.maxY - 5/100 then Vec3.mk a3.x (a3.y - 1) a3.z else a3
  let a := avoidanceOffsets.foldl (avoidanceProbeStep E C d) a4
  if Vec3.mag2 a > (1/1000) * (1/1000) then E.normalizeV a else a

/-- `DinosaurEcosystem::calculateHerdCenter` (lines 408-445): mean position
of alive same-species non-self agents within squared distance 0.15²;
the agent's own position if none. -/
def calculateHerdCenter (dinos : List Dinosaur) (d : Dinosaur) : Vec3 :=
  let acc := dinos.foldl
    (fun (acc : Vec3 × ℕ) other =>
      if other.isAlive = false ∨ other.id = d.id then acc
      else if other.species = d.species ∧
          Vec3.mag2 (Vec3.sub other.position d.position) < (15/100) * (15/100) then
        (Vec3.add acc.1 other.position, acc.2 + 1)
      else acc)
    (Vec3.zero, 0)
  if acc.2 > 0 then Vec3.smul (1 / (acc.2 : ℚ)) acc.1 else d.position

/-- The attempt loop of `chooseWanderTarget` (lines 452-464): each attempt
draws an angle (`rand σ * 2π`, consumed through the `cos2pi`/`sin2pi`
oracles) and a radius (`rand (σ+1) * 0.15`). -/
def wanderSearchGo (E : Env) (C : Config) (d : Dinosaur) : ℕ → ℕ → Vec3 × ℕ
  | 0, σ =>
    (⟨(C.bounds.minX + C.bounds.maxX) * (1/2), (C.bounds.minY + C.bounds.maxY) * (1/2),
      d.position.z⟩, σ)
  | fuel + 1, σ =>
    let u1 := E.rand σ
    let dist := E.rand (σ + 1) * (15/100)
    let target : Vec3 :=
      ⟨d.position.x + E.cos2pi u1 * dist, d.position.y + E.sin2pi u1 * dist, d.position.z⟩
    if isPositionSafe E C target then (target, σ + 2) else wanderSearchGo E C d fuel (σ + 2)

/-- `DinosaurEcosystem::chooseWanderTarget` (lines 447-472): up to 20
attempts, then the bounds-center fallback at the current elevation. -/
def chooseWanderTarget (E : Env) (C : Config) (d : Dinosaur) (σ : ℕ) : Vec3 × ℕ :=
  wanderSearchGo E C d 20 σ

/-- The flee-direction computation of the herbivore flee update
(lines 519-529): normalize the away-from-threat direction (guarded by
magnitude > 0.001), add the two jitter draws to the planar components,
renormalize under the same guard. -/
def fleeDirection (E : Env) (d : Dinosaur) (threatPos : Vec3) (σ : ℕ) : Vec3 :=
  let fleeDir0 := Vec3.sub d.position threatPos
  let fleeDir1 :=
    if Vec3.mag2 fleeDir0 > (1/1000) * (1/1000) then E.normalizeV fleeDir0 else fleeDir0
  let fleeDir2 := Vec3.mk (fleeDir1.x + (E.rand σ - 1/2) * (3/10))
    (fleeDir1.y + (E.rand (σ + 1) - 1/2) * (3/10)) fleeDir1.z
  if Vec3.mag2 fleeDir2 > (1/1000) * (1/1000) then E.normalizeV fleeDir2 else fleeDir2

/-- The herbivore flee update of `updateDinosaurAI` (lines 514-532):
run away from the threat at runSpeed with the state timer reset (the two
jitter draws are consumed by `fleeDirection`). -/
def herbFlee (E : Env) (d : Dinosaur) (threatPos : Vec3) (σ : ℕ) : Dinosaur × ℕ :=
  let info := getSpeciesInfo d.species
  ({ d with aiState := .FLEEING, currentAction := .RUN,
            velocity := Vec3.smul info.runSpeed (fleeDirection E d threatPos σ),
            stateTimer := 0 }, σ + 2)

/-- The trailing avoidance blending of `updateDinosaurAI` (lines 726-731):
add the avoidance vector scaled by walkSpeed × 0.5 when its magnitude
exceeds 0.001. -/
def applyAvoidance (E : Env) (C : Config) (d : Dinosaur) : Dinosaur :=
  let info := getSpeciesInfo d.species
  let avoidance := calculateAvoidanceVector E C d
  if Vec3.mag2 avoidance > (1/1000) * (1/1000) then
    { d with velocity := Vec3.add d.velocity (Vec3.smul (info.walkSpeed * (1/2)) avoidance) }
  else d

/-- The herbivore no-threat else-if chain of `updateDinosaurAI`
(lines 534-604): Fleeing cool-down, Idle dwell (one draw for the dwell
bound and, when it fires, one draw for the grazing-vs-wandering choice
with the 60/40 herd blend), Grazing dwell, and Wandering arrival/move.
In the Wandering move the source divides `toTarget` by its magnitude
(which is ≥ 0.02 in that branch); this is the `normalizeV` oracle. -/
def herbNoThreat (E : Env) (C : Config) (dinos : List Dinosaur) (d : Dinosaur) (σ : ℕ) :
    Dinosaur × ℕ :=
  let info := getSpeciesInfo d.species
  if d.aiState = .FLEEING then
    if d.stateTimer > 2 then
      let (t, σ') := chooseWanderTarget E C d σ
      ({ d with aiState := .WANDERING, currentAction := .WALK, targetPosition := t,
                stateTimer := 0 }, σ')
    else (d, σ)
  else if d.aiState = .IDLE then
    if d.stateTimer > 1 + E.rand σ * 3 then
      if E.rand (σ + 1) < 3/10 then
        ({ d with aiState := .GRAZING, currentAction := .IDLE, velocity := Vec3.zero,
                  stateTimer := 0 }, σ + 2)
      else
        let (t, σ') := chooseWanderTarget E C d (σ + 2)
        let herd := calculateHerdCenter dinos d
        let t2 := Vec3.mk (t.x * (6/10) + herd.x * (4/10)) (t.y * (6/10) + herd.y * (4/10)) t.z
        ({ d with aiState := .WANDERING, currentAction := .WALK, targetPosition := t2,
                  stateTimer := 0 }, σ')
    else (d, σ + 1)
  else if d.aiState = .GRAZING then
    if d.stateTimer > 2 + E.rand σ * 4 then
      let (t, σ') := chooseWanderTarget E C d (σ + 1)
      ({ d with aiState := .WANDERING, currentAction := .WALK, targetPosition := t,
                stateTimer := 0 }, σ')
    else (d, σ + 1)
  else if d.aiState = .WANDERING then
    let toTarget := Vec3.sub d.targetPosition d.position
    if Vec3.mag2 toTarget < (2/100) * (2/100) then
      ({ d with aiState := .IDLE, currentAction := .IDLE, velocity := Vec3.zero,
                stateTimer := 0 }, σ)
    else
      ({ d with velocity := Vec3.smul info.walkSpeed (E.normalizeV toTarget) }, σ)
  else (d, σ)

/-- The predator lava-flee early return of `updateDinosaurAI`
(lines 612-629): run toward the bounds center at runSpeed, skipping the
rest of the tick (including avoidance).  The C++ leaves `center[2]`
uninitialized; it is modelled as the agent's own elevation, so the flee
direction is planar — the z component of the resulting velocity is an
uninitialized read in the source and no consumer of claims reads it. -/
def predatorLavaFlee (E : Env) (C : Config) (d : Dinosaur) : Dinosaur :=
  let info := getSpeciesInfo d.species
  let center : Vec3 := ⟨(C.bounds.minX + C.bounds.maxX) * (1/2),
    (C.bounds.minY + C.bounds.maxY) * (1/2), d.position.z⟩
  let fleeDir0 := Vec3.sub center d.position
  let fleeDir :=
    if Vec3.mag2 fleeDir0 > (1/1000) * (1/1000) then E.normalizeV fleeDir0 else fleeDir0
  { d with aiState := .FLEEING, currentAction := .RUN,
           velocity := Vec3.smul info.runSpeed fleeDir }

/-- The predator hunting branch of `updateDinosaurAI` (lines 631-664):
enter Hunting with the prey id as target, re-locate the prey by id (first
match in registry order), and either enter Attacking (strictly within
attackRange: zero velocity, timer reset) or chase at runSpeed. -/
def predatorHunt (E : Env) (dinos : List Dinosaur) (d : Dinosaur) (preyId : ℕ) : Dinosaur :=
  let info := getSpeciesInfo d.species
  let d1 := { d with aiState := .HUNTING, targetDinoId := preyId }
  match dinos.find? (fun p => p.id == preyId) with
  | none => d1
  | some prey =>
    let toTarget := Vec3.sub prey.position d1.position
    let dist2 := Vec3.mag2 toTarget
    if dist2 < info.attackRange * info.attackRange then
      { d1 with aiState := .ATTACKING, currentAction := .ATTACK, velocity := Vec3.zero,
                stateTimer := 0 }
    else
      let dir := if dist2 > (1/1000) * (1/1000) then E.normalizeV toTarget else toTarget
      { d1 with currentAction := .RUN, velocity := Vec3.smul info.runSpeed dir }

/-- The kill loop of the attack resolution (lines 670-692): find the first
registry entry whose id matches the attacker's target and which is alive;
if it lies strictly within 2 × attackRange, mark it Dying (not alive,
Die action, frame and timer reset, velocity zeroed). -/
def resolveAttack (dinos : List Dinosaur) (d : Dinosaur) : List Dinosaur :=
  let info := getSpeciesInfo d.species
  match dinos.findIdx? (fun p => p.id == d.targetDinoId && p.isAlive) with
  | none => dinos
  | some k =>
    match dinos[k]? with
    | none => dinos
    | some prey =>
      if Vec3.mag2 (Vec3.sub prey.position d.position) <
          (info.attackRange * 2) * (info.attackRange * 2) then
        dinos.set k { prey with isAlive := false, aiState := .DYING, currentAction := .DIE,
                                currentFrame := 0, stateTimer := 0, velocity := Vec3.zero }
      else dinos

/-- The predator no-prey wander branch (lines 699-723). -/
def predatorWander (E : Env) (C : Config) (d : Dinosaur) (σ : ℕ) : Dinosaur × ℕ :=
  let info := getSpeciesInfo d.species
  let (d1, σ1) :=
    if d.aiState ≠ .WANDERING ∨ d.stateTimer > 5 then
      let (t, σ') := chooseWanderTarget E C d σ
      ({ d with aiState := .WANDERING, currentAction := .WALK, targetPosition := t,
                stateTimer := 0 }, σ')
    else (d, σ)
  let toTarget := Vec3.sub d1.targetPosition d1.position
  if Vec3.mag2 toTarget > (2/100) * (2/100) then
    ({ d1 with velocity := Vec3.smul info.walkSpeed (E.normalizeV toTarget) }, σ1)
  else
    ({ d1 with velocity := Vec3.zero }, σ1)

/-- `DinosaurEcosystem::updateDinosaurAI` (lines 474-732), acting on the
registry at index `i`.  The C++ mutates the agent by reference, so the
state-timer bump (line 502) is written back into the list before the
scans run, and the attack resolution re-reads the (possibly aliased)
agent from the mutated list before the return-to-Idle writes. -/
def updateDinosaurAI (E : Env) (C : Config) (dt : Scalar) (hands : List Vec3)
    (dinos : List Dinosaur) (i : ℕ) (σ : ℕ) : List Dinosaur × ℕ :=
  match dinos[i]? with
  | none => (dinos, σ)
  | some d0 =>
    if d0.isAlive = false then
      if d0.aiState = .DEAD then
        let d1 : Dinosaur := { d0 with respawnTimer := d0.respawnTimer - dt }
        if d1.respawnTimer ≤ 0 then
          let (newPos, σ1) := findValidSpawnPosition E C σ
          (dinos.set i { d1 with position := newPos, isAlive := true, isVisible := true,
                                 alpha := 1, aiState := .IDLE, currentAction := .IDLE,
                                 stateTimer := 0 }, σ1)
        else (dinos.set i d1, σ)
      else (dinos, σ)
    else
      let d : Dinosaur := { d0 with stateTimer := d0.stateTimer + dt }
      let ds := dinos.set i d
      if isHerbivore d.species then
        match (findNearestThreat E C ds hands d).1 with
        | some threatPos =>
          let (d', σ') := herbFlee E d threatPos σ
          (ds.set i (applyAvoidance E C d'), σ')
        | none =>
          let (d', σ') := herbNoThreat E C ds d σ
          (ds.set i (applyAvoidance E C d'), σ')
      else
        if (queryTerrain E C d.position).isLava then
          (ds.set i (predatorLavaFlee E C d), σ)
        else
          match (findNearestPrey ds d).1 with
          | some preyId =>
            (ds.set i (applyAvoidance E C (predatorHunt E ds d preyId)), σ)
          | none =>
            if d.aiState = .ATTACKING then
              if d.stateTimer > 1 then
                let ds1 := resolveAttack ds d
                let dcur := (ds1[i]?).getD d
                (ds1.set i (applyAvoidance E C
                  { dcur with aiState := .IDLE, currentAction := .IDLE, stateTimer := 0 }), σ)
              else (ds.set i (applyAvoidance E C d), σ)
            else
              let (d', σ') := predatorWander E C d σ
              (ds.set i (applyAvoidance E C d'), σ')

/-- `DinosaurEcosystem::updateDinosaurAnimation` (lines 734-782). -/
def updateDinosaurAnimation (E : Env) (C : Config) (dt : Scalar) (d : Dinosaur) : Dinosaur :=
  if d.aiState = .DYING then
    let t := d.animationTimer + dt
    if t ≥ d.frameTime then
      let d1 := { d with animationTimer := t - d.frameTime, currentFrame := d.currentFrame + 1 }
      let info := getSpeciesInfo d.species
      if d1.currentFrame ≥ info.framesPerAction .DIE then
        let d2 := { d1 with currentFrame := info.framesPerAction .DIE - 1,
                            alpha := d1.alpha - dt * (1/2) }
        if d2.alpha ≤ 0 then
          { d2 with aiState := .DEAD, isVisible := false, respawnTimer := C.respawnDelay }
        else d2
      else d1
    else { d with animationTimer := t }
  else
    let t := d.animationTimer + dt
    let d1 :=
      if t ≥ d.frameTime then
        let info := getSpeciesInfo d.species
        let f := d.currentFrame + 1
        { d with animationTimer := t - d.frameTime,
                 currentFrame := if f ≥ info.framesPerAction d.currentAction then 0 else f }
      else { d with animationTimer := t }
    if Vec3.mag2 d1.velocity > (1/1000) * (1/1000) then
      { d1 with direction := E.calcDir d1.velocity }
    else d1

/-- `DinosaurEcosystem::updateDinosaurMovement` (lines 784-804): skipped
for non-alive agents; planar position advanced by velocity × dt and
clamped to bounds; elevation smoothed a fixed 0.1 fraction (not scaled
by dt) toward the oracle height at the new planar position. -/
def updateDinosaurMovement (E : Env) (C : Config) (dt : Scalar) (d : Dinosaur) : Dinosaur :=
  if d.isAlive = false then d
  else
    let x1 := d.position.x + d.velocity.x * dt
    let y1 := d.position.y + d.velocity.y * dt
    let x2 := max C.bounds.minX (min C.bounds.maxX x1)
    let y2 := max C.bounds.minY (min C.bounds.maxY y1)
    let terrain := queryTerrain E C ⟨x2, y2, d.position.z⟩
    let z2 := d.position.z + (terrain.elevation - d.position.z) * (1/10)
    { d with position := ⟨x2, y2, z2⟩ }

/-- The ecosystem state threaded through a tick: the agent registry, the
externally supplied threat points, the id counter, and the index of the
next unconsumed random draw. -/
structure EcoState where
  dinos : List Dinosaur
  hands : List Vec3
  nextId : ℕ
  randIdx : ℕ
deriving Repr

/-- One agent's slice of `DinosaurEcosystem::update` (lines 809-814):
AI, then animation, then movement, on the registry entry at index `i`. -/
def tickAt (E : Env) (C : Config) (dt : Scalar) (s : EcoState) (i : ℕ) : EcoState :=
  let (ds1, σ1) := updateDinosaurAI E C dt s.hands s.dinos i s.randIdx
  let ds2 :=
    match ds1[i]? with
    | some d => ds1.set i (updateDinosaurMovement E C dt (updateDinosaurAnimation E C dt d))
    | none => ds1
  { s with dinos := ds2, randIdx := σ1 }

/-- `DinosaurEcosystem::update` (lines 806-815): one full ecosystem tick
over every agent in registry order. -/
def update (E : Env) (C : Config) (dt : Scalar) (s : EcoState) : EcoState :=
  (List.range s.dinos.length).foldl (tickAt E C dt) s

/-- `DinosaurEcosystem::spawnDinosaur` (lines 199-239): append a fresh
agent with a random facing (`int(randomFloat*8) % 8`) and a staggered
initial state timer (`randomFloat * 2`). -/
def spawnDinosaur (E : Env) (C : Config) (species : DinosaurSpecies) (position : Vec3)
    (s : EcoState) : EcoState :=
  let dirIdx := (⌊E.rand s.randIdx * 8⌋).toNat % 8
  let dir : DinosaurDirection :=
    match dirIdx with
    | 0 => .N
    | 1 => .NE
    | 2 => .E
    | 3 => .SE
    | 4 => .S
    | 5 => .SW
    | 6 => .W
    | _ => .NW
  let d : Dinosaur :=
    { species := species
      id := s.nextId
      position := position
      velocity := Vec3.zero
      targetPosition := position
      targetElevation := position.z
      currentAction := .IDLE
      direction := dir
      currentFrame := 0
      animationTimer := 0
      frameTime := 1 / C.animationSpeed
      aiState := .IDLE
      targetDinoId := 0
      stateTimer := E.rand (s.randIdx + 1) * 2
      respawnTimer := 0
      isAlive := true
      isVisible := true
      alpha := 1 }
  { s with dinos := s.dinos ++ [d], nextId := s.nextId + 1, randIdx := s.randIdx + 2 }

/-- The direction lookup table `angleToDir` of `calculateDirection`
(Dinosaur.cpp lines 178-188), indexed by the 45°-sector number of the
(negated) velocity angle. -/
def angleToDir (n : ℕ) : DinosaurDirection :=
  match n with
  | 0 => .E
  | 1 => .NE
  | 2 => .N
  | 3 => .NW
  | 4 => .W
  | 5 => .SW
  | 6 => .S
  | _ => .SE

/-- `calculateDirection` (Dinosaur.cpp lines 155-191) for a velocity of
positive magnitude whose planar angle is θ degrees.  The source computes
`atan2(-velocity[1], -velocity[0]) * 180 / π`, which is the planar angle
of the negated velocity, i.e. θ + 180 up to a multiple of 360, in
(-180, 180]; after the `if (angle < 0) angle += 360` normalization the
working angle is (θ + 180) reduced into [0, 360).  The bucketing
`int((angle + 22.5) / 45) % 8` truncates a nonnegative value, so it is
the floor. -/
def calculateDirectionAtAngle (θ : ℚ) : DinosaurDirection :=
  let angle := (θ + 180) - 360 * ((⌊(θ + 180) / 360⌋ : ℤ) : ℚ)
  angleToDir ((⌊(angle + 45/2) / 45⌋).toNat % 8)

/-- Fuel-based bisection for the natural square root (structural, so the
kernel can evaluate it): maintains lo ≤ √n < hi and halves the interval. -/
def natSqrtBisect (n : ℕ) : ℕ → ℕ → ℕ → ℕ
  | 0, lo, _ => lo
  | fuel + 1, lo, hi =>
    let mid := (lo + hi) / 2
    if mid = lo then lo
    else if mid * mid ≤ n then natSqrtBisect n fuel mid hi
    else natSqrtBisect n fuel lo mid

/-- Floor square root of a natural number, exact for n < 2^64 (64 halvings
of the initial interval [0, n+1) reach width 1). -/
def natSqrtE (n : ℕ) : ℕ := natSqrtBisect n 64 0 (n + 1)

/-- Exact rational square root on perfect squares: for q = a/b ≥ 0 in
lowest terms, sqrt(a/b) = sqrt(a·b)/b, and `natSqrtE` returns the exact
root whenever a·b is a perfect square — which holds for every magnitude
arising in the concrete runs below.  Used only to instantiate the
`normalizeV` oracle at concrete inputs. -/
def ratSqrt (q : ℚ) : ℚ := ((natSqrtE (q.num.toNat * q.den) : ℤ) : ℚ) / (q.den : ℚ)

/-- Rational realization of the `Geometry` normalization `v / mag v`,
exact on vectors whose squared magnitude is a perfect square. -/
def qnormalize (v : Vec3) : Vec3 :=
  let m := ratSqrt (Vec3.mag2 v)
  if m = 0 then v else ⟨v.x / m, v.y / m, v.z / m⟩

/-- A concrete oracle environment over a given terrain-height field and
random stream: exact rational normalization, a constant facing oracle
(no claim inspects the facing produced by the atan2 oracle; its exact
bucketing is verified separately via `calculateDirectionAtAngle`), and
cos/sin oracles fixed at the unit-circle point (1, 0) (the wander draw
is not exercised by the concrete runs below). -/
def qEnv (height : Scalar → Scalar → Scalar) (rand : ℕ → Scalar) : Env :=
  { getHeightAt := height
    normalizeV := qnormalize
    calcDir := fun _ => .S
    cos2pi := fun _ => 1
    sin2pi := fun _ => 0
    rand := rand }

/-- Flat terrain at elevation 0 together with the constant 1/2 random
stream (so the flee jitter draws `(rand − 0.5) · 0.3` vanish and motion
stays on the axis joining the two scenario agents). -/
def flatEnv : Env := qEnv (fun _ _ => 0) (fun _ => 1/2)

/-- The §8 scenario state, built by the spawn operation itself: one T-Rex
predator (id 0) at the origin and one Triceratops herbivore (id 1) at
distance 0.01, inside the default unit-square-ish bounds. -/
def scenarioStart : EcoState :=
  spawnDinosaur flatEnv defaultConfig .TRICERATOPS ⟨1/100, 0, 0⟩
    (spawnDinosaur flatEnv defaultConfig .TREX ⟨0, 0, 0⟩
      { dinos := [], hands := [], nextId := 0, randIdx := 0 })

/-- The bounds-plus-lava-only safety check that claim C10 says
`isPositionSafe` reduces to (this definition follows the claim's words,
for comparison with the source-derived `isPositionSafe`). -/
def isPositionSafeBoundsLava (E : Env) (C : Config) (pos : Vec3) : Bool :=
  if pos.x < C.bounds.minX ∨ pos.x > C.bounds.maxX ∨
     pos.y < C.bounds.minY ∨ pos.y > C.bounds.maxY then
    false
  else if (queryTerrain E C pos).isLava then false
  else true

/-- `avoidanceProbeStep` with the deep-water repulsion term removed
(claim C10's consequence definition, for comparison). -/
def avoidanceProbeStepNoWater (E : Env) (C : Config) (d : Dinosaur) (acc : Vec3) (o : ℤ × ℤ) :
    Vec3 :=
  let dx : Scalar := (o.1 : ℚ)
  let dy : Scalar := (o.2 : ℚ)
  let checkPos : Vec3 := ⟨d.position.x + dx * (3/100), d.position.y + dy * (3/100), d.position.z⟩
  let terrain := queryTerrain E C checkPos
  if terrain.isLava then Vec3.mk (acc.x - dx * 2) (acc.y - dy * 2) acc.z else acc

/-- `calculateAvoidanceVector` with the deep-water repulsion removed
(claim C10's consequence definition, for comparison). -/
def calculateAvoidanceVectorNoWater (E : Env) (C : Config) (d : Dinosaur) : Vec3 :=
  let a0 : Vec3 := Vec3.zero
  let a1 := if d.position.x < C.bounds.minX + 5/100 then Vec3.mk (a0.x + 1) a0.y a0.z else a0
  let a2 := if d.position.x > C.bounds.maxX - 5/100 then Vec3.mk (a1.x - 1) a1.y a1.z else a1
  let a3 := if d.position.y < C.bounds.minY + 5/100 then Vec3.mk a2.x (a2.y + 1) a2.z else a2
  let a4 := if d.position.y > C.bounds.maxY - 5/100 then Vec3.mk a3.x (a3.y - 1) a3.z else a3
  let a := avoidanceOffsets.foldl (avoidanceProbeStepNoWater E C d) a4
  if Vec3.mag2 a > (1/1000) * (1/1000) then E.normalizeV a else a

/-- A baseline agent record used to build the concrete fixtures below
(field values as produced by `spawnDinosaur` with the constant 1/2
stream, T-Rex at the origin). -/
def baseDino : Dinosaur :=
  { species := .TREX
    id := 0
    position := Vec3.zero
    velocity := Vec3.zero
    targetPosition := Vec3.zero
    targetElevation := 0
    currentAction := .IDLE
    direction := .S
    currentFrame := 0
    animationTimer := 0
    frameTime := 1/12
    aiState := .IDLE
    targetDinoId := 0
    stateTimer := 0
    respawnTimer := 0
    isAlive := true
    isVisible := true
    alpha := 1 }

/-- A dead agent waiting on its respawn countdown (fixture for C6). -/
def deadDino : Dinosaur :=
  { baseDino with isAlive := false, isVisible := false, aiState := .DEAD, alpha := 0,
                  respawnTimer := 1/20 }

/-- A dying agent at the last Die frame with low opacity (fixture for C3). -/
def dyingDino : Dinosaur :=
  { baseDino with isAlive := false, aiState := .DYING, currentAction := .DIE,
                  currentFrame := 14, animationTimer := 0, alpha := 1/100 }

/-- Terrain oracle that is lava everywhere (elevation -20, below the
default threshold -10), with the constant 1/2 stream (fixture for C7). -/
def lavaEnv : Env := qEnv (fun _ _ => -20) (fun _ => 1/2)

/-- A herbivore standing inside the left boundary margin (fixture for the
C2 counterexample: the avoidance blend is nonzero there). -/
def herbAtWall : Dinosaur :=
  { baseDino with species := .TRICERATOPS, id := 1, position := ⟨-48/100, 0, 0⟩ }

/-- A predator 0.01 west of `herbAtWall` (fixture for C2 and C7). -/
def predNearWall : Dinosaur :=
  { baseDino with species := .TREX, id := 0, position := ⟨-49/100, 0, 0⟩ }

/-- A herbivore at the origin; under `lavaEnv` it stands on lava
(fixture for the C7 counterexample). -/
def herbOnLava : Dinosaur :=
  { baseDino with species := .TRICERATOPS, id := 1, position := ⟨0, 0, 0⟩ }

/-- A predator 0.005 away from `herbOnLava` — strictly closer than the
code's fixed 0.01 lava-threat distance (fixture for C7). -/
def predOnLava : Dinosaur :=
  { baseDino with species := .TREX, id := 0, position := ⟨1/200, 0, 0⟩ }

/-- Claim C8's liveness/visibility invariant: isAlive = false exactly in
the Dying and Dead states, and isVisible = false only in the Dead state. -/
def InvD (d : Dinosaur) : Prop :=
  (d.isAlive = false ↔ (d.aiState = .DYING ∨ d.aiState = .DEAD)) ∧
  (d.isVisible = false → d.aiState = .DEAD)

/-- Auxiliary registry invariant: a predator in the Attacking state never
targets its own id (`targetDinoId` is only ever set from `findNearestPrey`,
which skips the scanning agent).  Needed because the kill loop does not
exclude the attacker itself. -/
def InvT (d : Dinosaur) : Prop :=
  d.aiState = .ATTACKING → d.targetDinoId ≠ d.id

instance (d : Dinosaur) : Decidable (InvD d) := by
  unfold InvD
  infer_instance

instance (d : Dinosaur) : Decidable (InvT d) := by
  unfold InvT
  infer_instance

/-- Pointwise relation between a registry and its successor after one
operation: same length, and every slot keeps its id and species,
satisfies the registry invariants, and never turns an alive herbivore
into a dead one. -/
@[reducible] def StepFacts (l l' : List Dinosaur) : Prop :=
  l'.length = l.length ∧
  ∀ (k : ℕ) (dk : Dinosaur), l[k]? = some dk →
    ∃ dk', l'[k]? = some dk' ∧ dk'.id = dk.id ∧ dk'.species = dk.species ∧
      (InvD dk' ∧ InvT dk') ∧
      (dk.isAlive = true → isHerbivore dk.species = true → dk'.isAlive = true)

/-! ### Theorems -/

/-- C4 (counterexample): the claim "a velocity at planar angle 10° maps to
the East sector and a velocity at planar angle 190° maps to the West
sector" is false on the code: because `calculateDirection` feeds the
*negated* velocity to atan2, the 10° velocity lands in the West sector
(and the 190° one in East). -/
theorem C4_counterexample :
    calculateDirectionAtAngle 10 = DinosaurDirection.W ∧
    ¬(calculateDirectionAtAngle 10 = DinosaurDirection.E ∧
      calculateDirectionAtAngle 190 = DinosaurDirection.W) := by
  with_unfolding_all decide

/-- C4 (amended): the direction classification buckets the *negated*
velocity angle by the (angle+22.5)/45 rule, so a velocity at planar angle
10° maps to the West sector and one at 190° maps to the East sector;
the 22.5° bucket boundary resolves by the half-open floor rule (a 22.5°
velocity faces SW, the sector past West). -/
theorem C4_direction_buckets :
    calculateDirectionAtAngle 10 = DinosaurDirection.W ∧
    calculateDirectionAtAngle 190 = DinosaurDirection.E ∧
    calculateDirectionAtAngle (45/2) = DinosaurDirection.SW ∧
    calculateDirectionAtAngle 0 = DinosaurDirection.W ∧
    calculateDirectionAtAngle 90 = DinosaurDirection.S ∧
    calculateDirectionAtAngle 270 = DinosaurDirection.N := by
  with_unfolding_all decide

/-- C9: the movement integrator leaves a non-alive agent entirely
unchanged; for an alive agent it changes only the position — the planar
coordinates are advanced by velocity × dt and clamped into the bounds
(never rejected), the elevation moves a fixed 0.1 fraction (not scaled by
dt) toward the oracle height at the new planar point — and whenever the
bounds are well-formed the resulting planar position lies within them. -/
theorem C9_movement_frame (E : Env) (C : Config) (dt : Scalar) (d : Dinosaur) :
    (d.isAlive = false → updateDinosaurMovement E C dt d = d) ∧
    (d.isAlive = true →
      (updateDinosaurMovement E C dt d =
        { d with position := (updateDinosaurMovement E C dt d).position }) ∧
      (updateDinosaurMovement E C dt d).position =
        ⟨max C.bounds.minX (min C.bounds.maxX (d.position.x + d.velocity.x * dt)),
         max C.bounds.minY (min C.bounds.maxY (d.position.y + d.velocity.y * dt)),
         d.position.z + ((queryTerrain E C
             ⟨max C.bounds.minX (min C.bounds.maxX (d.position.x + d.velocity.x * dt)),
              max C.bounds.minY (min C.bounds.maxY (d.position.y + d.velocity.y * dt)),
              d.position.z⟩).elevation - d.position.z) * (1/10)⟩ ∧
      (C.bounds.minX ≤ C.bounds.maxX → C.bounds.minY ≤ C.bounds.maxY →
        C.bounds.minX ≤ (updateDinosaurMovement E C dt d).position.x ∧
        (updateDinosaurMovement E C dt d).position.x ≤ C.bounds.maxX ∧
        C.bounds.minY ≤ (updateDinosaurMovement E C dt d).position.y ∧
        (updateDinosaurMovement E C dt d).position.y ≤ C.bounds.maxY)) := by
  constructor
  · intro h
    simp [updateDinosaurMovement, h]
  · intro h
    rw [updateDinosaurMovement]
    simp only [h]
    refine ⟨rfl, rfl, fun hx hy => ?_⟩
    exact ⟨le_max_left _ _, max_le hx (min_le_left _ _),
      le_max_left _ _, max_le hy (min_le_left _ _)⟩

/-- C9 (witness): the theorem applied to a concrete dead agent: movement
leaves it unchanged. -/
theorem C9_witness : updateDinosaurMovement flatEnv defaultConfig (1/10) deadDino = deadDino :=
  (C9_movement_frame flatEnv defaultConfig (1/10) deadDino).1 rfl

/-- C10: the terrain query always reports zero water depth, so position
safety coincides with the bounds-plus-lava check and the avoidance vector
coincides with its no-deep-water-repulsion variant (whenever the
configured water-avoidance threshold is nonnegative, as the constructor's
0.5 is). -/
theorem C10_waterdepth_zero (E : Env) (C : Config) (pos : Vec3) (d : Dinosaur) :
    (queryTerrain E C pos).waterDepth = 0 ∧
    (0 ≤ C.waterAvoidanceDepth →
      isPositionSafe E C pos = isPositionSafeBoundsLava E C pos ∧
      calculateAvoidanceVector E C d = calculateAvoidanceVectorNoWater E C d) := by
  have hwd : ∀ q : Vec3, (queryTerrain E C q).waterDepth = 0 := by
    intro q
    rw [queryTerrain]
    split <;> rfl
  refine ⟨hwd pos, fun h => ⟨?_, ?_⟩⟩
  · rw [isPositionSafe, isPositionSafeBoundsLava]
    simp only [hwd pos]
    rw [if_neg (not_lt.mpr h)]
  · have hstep : ∀ acc o, avoidanceProbeStep E C d acc o =
        avoidanceProbeStepNoWater E C d acc o := by
      intro acc o
      rw [avoidanceProbeStep, avoidanceProbeStepNoWater]
      simp only [hwd]
      rw [if_neg (not_lt.mpr h)]
    have hfold : ∀ init, avoidanceOffsets.foldl (avoidanceProbeStep E C d) init =
        avoidanceOffsets.foldl (avoidanceProbeStepNoWater E C d) init := by
      intro init
      exact List.foldl_ext _ _ init (fun a o _ => hstep a o)
    rw [calculateAvoidanceVector, calculateAvoidanceVectorNoWater, hfold]

/-- C10 (witness): the theorem applied at a concrete point and agent with
the default configuration. -/
theorem C10_witness :
    (queryTerrain flatEnv defaultConfig Vec3.zero).waterDepth = 0 ∧
    isPositionSafe flatEnv defaultConfig Vec3.zero =
      isPositionSafeBoundsLava flatEnv defaultConfig Vec3.zero ∧
    calculateAvoidanceVector flatEnv defaultConfig baseDino =
      calculateAvoidanceVectorNoWater flatEnv defaultConfig baseDino := by
  obtain ⟨h1, h2⟩ := C10_waterdepth_zero flatEnv defaultConfig Vec3.zero baseDino
  exact ⟨h1, h2 (by with_unfolding_all decide)⟩

/-- C3 (counterexample): the claim "alpha stays in [0,1] … and never
becomes negative" is false on the code: the Dying fade `alpha -= dt*0.5`
is not clamped, so a dying agent with alpha = 0.01 ticked with dt = 0.1
ends the tick with alpha = -1/25 < 0 (and state Dead). -/
theorem C3_counterexample :
    (updateDinosaurAnimation flatEnv defaultConfig (1/10) dyingDino).alpha < 0 ∧
    (updateDinosaurAnimation flatEnv defaultConfig (1/10) dyingDino).aiState =
      DinosaurAIState.DEAD := by
  with_unfolding_all decide

/-- C3 (amended): during Dying, alpha never increases and decreases by
exactly dt × 0.5 — but only on ticks where the frame timer completes a
frame with the Die animation already at (or past) its final frame, not on
every tick; it can undershoot 0 by at most dt × 0.5 on the crossing tick;
the tick on which the (possibly negative) result is ≤ 0 sets state Dead,
clears visibility and sets the respawn timer to the configured delay; and
once the state is Dead the animation driver no longer touches alpha,
visibility, state, or the respawn timer, so the transition fires exactly
once. -/
theorem C3_alpha_dying (E : Env) (C : Config) (dt : Scalar) (d : Dinosaur) (hdt : 0 < dt) :
    (d.aiState = .DYING →
      ((updateDinosaurAnimation E C dt d).alpha = d.alpha ∨
       (updateDinosaurAnimation E C dt d).alpha = d.alpha - dt * (1/2)) ∧
      d.alpha - dt * (1/2) ≤ (updateDinosaurAnimation E C dt d).alpha ∧
      (updateDinosaurAnimation E C dt d).alpha ≤ d.alpha ∧
      ((updateDinosaurAnimation E C dt d).alpha = d.alpha - dt * (1/2) ↔
        (d.frameTime ≤ d.animationTimer + dt ∧
         (getSpeciesInfo d.species).framesPerAction .DIE ≤ d.currentFrame + 1)) ∧
      ((updateDinosaurAnimation E C dt d).aiState = .DEAD ↔
        (d.frameTime ≤ d.animationTimer + dt ∧
         (getSpeciesInfo d.species).framesPerAction .DIE ≤ d.currentFrame + 1 ∧
         d.alpha - dt * (1/2) ≤ 0)) ∧
      ((updateDinosaurAnimation E C dt d).aiState = .DEAD →
        (updateDinosaurAnimation E C dt d).isVisible = false ∧
        (updateDinosaurAnimation E C dt d).respawnTimer = C.respawnDelay)) ∧
    (d.aiState = .DEAD →
      (updateDinosaurAnimation E C dt d).alpha = d.alpha ∧
      (updateDinosaurAnimation E C dt d).isVisible = d.isVisible ∧
      (updateDinosaurAnimation E C dt d).aiState = .DEAD ∧
      (updateDinosaurAnimation E C dt d).respawnTimer = d.respawnTimer) := by
  constructor
  · intro h
    rw [updateDinosaurAnimation, if_pos h]
    by_cases h1 : d.animationTimer + dt ≥ d.frameTime
    · rw [if_pos h1]
      by_cases h2 : d.currentFrame + 1 ≥ (getSpeciesInfo d.species).framesPerAction .DIE
      · rw [if_pos h2]
        by_cases h3 : d.alpha - dt * (1/2) ≤ 0
        · rw [if_pos h3]
          refine ⟨Or.inr rfl, le_refl _, by linarith, ⟨fun _ => ⟨h1, h2⟩, fun _ => rfl⟩,
            ⟨fun _ => ⟨h1, h2, h3⟩, fun _ => rfl⟩, fun _ => ⟨rfl, rfl⟩⟩
        · rw [if_neg h3]
          refine ⟨Or.inr rfl, le_refl _, by linarith, ⟨fun _ => ⟨h1, h2⟩, fun _ => rfl⟩,
            ⟨fun hc => by simp [h] at hc, fun hc => absurd hc.2.2 h3⟩,
            fun hc => by simp [h] at hc⟩
      · rw [if_neg h2]
        refine ⟨Or.inl rfl, by linarith, le_refl _,
          ⟨fun hc => by simp at hc; linarith, fun hc => absurd hc.2 h2⟩,
          ⟨fun hc => by simp [h] at hc, fun hc => absurd hc.2.1 h2⟩,
          fun hc => by simp [h] at hc⟩
    · rw [if_neg h1]
      refine ⟨Or.inl rfl, by linarith, le_refl _,
        ⟨fun hc => by simp at hc; linarith, fun hc => absurd hc.1 h1⟩,
        ⟨fun hc => by simp [h] at hc, fun hc => absurd hc.1 h1⟩,
        fun hc => by simp [h] at hc⟩
  · intro h
    have hne : d.aiState ≠ DinosaurAIState.DYING := by rw [h]; decide
    simp only [updateDinosaurAnimation]
    rw [if_neg hne]
    split_ifs <;> exact ⟨rfl, rfl, h, rfl⟩

/-- C3 (witness): the amended theorem applied to the concrete dying
fixture with dt = 0.1: the fade fires and the state becomes Dead with
visibility cleared and the respawn timer set. -/
theorem C3_witness :
    (updateDinosaurAnimation flatEnv defaultConfig (1/10) dyingDino).alpha =
      dyingDino.alpha - (1/10) * (1/2) ∧
    (updateDinosaurAnimation flatEnv defaultConfig (1/10) dyingDino).isVisible = false ∧
    (updateDinosaurAnimation flatEnv defaultConfig (1/10) dyingDino).respawnTimer =
      defaultConfig.respawnDelay := by
  obtain ⟨hdying, _⟩ :=
    C3_alpha_dying flatEnv defaultConfig (1/10) dyingDino (by with_unfolding_all decide)
  obtain ⟨_, _, _, halpha, hdead, honce⟩ := hdying rfl
  have hd : (updateDinosaurAnimation flatEnv defaultConfig (1/10) dyingDino).aiState =
      DinosaurAIState.DEAD := by
    refine hdead.mpr ⟨by with_unfolding_all decide, by with_unfolding_all decide,
      by with_unfolding_all decide⟩
  obtain ⟨hv, hr⟩ := honce hd
  exact ⟨halpha.mpr ⟨by with_unfolding_all decide, by with_unfolding_all decide⟩, hv, hr⟩

/-- Every result of the spawn-search loop is safe or is the centroid
fallback (helper for C5). -/
theorem spawnSearchGo_safe_or_center (E : Env) (C : Config) :
    ∀ (fuel σ : ℕ), isPositionSafe E C (spawnSearchGo E C fuel σ).1 = true ∨
      (spawnSearchGo E C fuel σ).1 = spawnFallbackCenter E C
  | 0, _ => Or.inr rfl
  | fuel + 1, σ => by
    rw [spawnSearchGo]
    split
    · rename_i h
      exact Or.inl h
    · exact spawnSearchGo_safe_or_center E C fuel (σ + 2)

/-- Every result of the spawn-search loop carries the oracle's elevation
at its own planar point (helper for C6). -/
theorem spawnSearchGo_z_oracle (E : Env) (C : Config) :
    ∀ (fuel σ : ℕ), (spawnSearchGo E C fuel σ).1.z =
      (queryTerrain E C (spawnSearchGo E C fuel σ).1).elevation
  | 0, _ => rfl
  | fuel + 1, σ => by
    rw [spawnSearchGo]
    split
    · rfl
    · exact spawnSearchGo_z_oracle E C fuel (σ + 2)

/-- C5: the spawn-position search always returns a position: one that
satisfies `isPositionSafe` (in bounds, not lava, water depth within the
avoidance threshold), or — when all 100 attempts fail — the bounds
centroid with oracle-queried elevation. -/
theorem C5_spawn_safe_or_fallback (E : Env) (C : Config) (σ : ℕ) :
    isPositionSafe E C (findValidSpawnPosition E C σ).1 = true ∨
    (findValidSpawnPosition E C σ).1 = spawnFallbackCenter E C :=
  spawnSearchGo_safe_or_center E C 100 σ

/-- C6: a Dead, not-alive agent whose respawn timer is brought to ≤ 0 by
the tick's deltaTime is respawned within that AI tick: alive, Idle,
visible, alpha 1, at a freshly searched spawn position whose elevation
component equals the terrain oracle's reported elevation at that planar
point. -/
theorem C6_respawn (E : Env) (C : Config) (dt : Scalar) (hands : List Vec3)
    (dinos : List Dinosaur) (i σ : ℕ) (d0 : Dinosaur)
    (hget : dinos[i]? = some d0) (halive : d0.isAlive = false)
    (hstate : d0.aiState = .DEAD) (htimer : d0.respawnTimer - dt ≤ 0) :
    ∃ d', (updateDinosaurAI E C dt hands dinos i σ).1[i]? = some d' ∧
      d'.isAlive = true ∧ d'.aiState = .IDLE ∧ d'.isVisible = true ∧ d'.alpha = 1 ∧
      d'.stateTimer = 0 ∧ d'.currentAction = .IDLE ∧
      d'.position = (findValidSpawnPosition E C σ).1 ∧
      d'.position.z = (queryTerrain E C d'.position).elevation := by
  have hlen : i < dinos.length := by
    rcases List.getElem?_eq_some_iff.mp hget with ⟨h, _⟩
    exact h
  rcases hsp : findValidSpawnPosition E C σ with ⟨newPos, σ1⟩
  simp only [updateDinosaurAI, hget]
  rw [if_pos halive, if_pos hstate]
  rw [if_pos (show ({ d0 with respawnTimer := d0.respawnTimer - dt } :
    Dinosaur).respawnTimer ≤ 0 from htimer), hsp]
  refine ⟨{ d0 with respawnTimer := d0.respawnTimer - dt, position := newPos,
                    isAlive := true, isVisible := true, alpha := 1, aiState := .IDLE,
                    currentAction := .IDLE, stateTimer := 0 },
    ?_, rfl, rfl, rfl, rfl, rfl, rfl, ?_, ?_⟩
  · rw [List.getElem?_set_self (by simpa using hlen)]
  · rfl
  · have hz := spawnSearchGo_z_oracle E C 100 σ
    rw [show findValidSpawnPosition E C σ = spawnSearchGo E C 100 σ from rfl] at hsp
    rw [hsp] at hz
    exact hz

/-- Catalog range facts: attack ranges are nonnegative, twice the attack
range never exceeds the sight range, and sight ranges lie in [0, 25]. -/
theorem speciesRangeFacts (s : DinosaurSpecies) :
    0 ≤ (getSpeciesInfo s).attackRange ∧
    (getSpeciesInfo s).attackRange * 2 ≤ (getSpeciesInfo s).sightRange ∧
    0 ≤ (getSpeciesInfo s).sightRange ∧ (getSpeciesInfo s).sightRange ≤ 25 := by
  cases s <;> refine ⟨?_, ?_, ?_, ?_⟩ <;> with_unfolding_all decide

/-- The two roles are mutually exclusive. -/
theorem herb_not_pred (s : DinosaurSpecies) (h : isHerbivore s = true) :
    isPredator s = false := by
  cases s <;> revert h <;> decide

/-- The predator loop step of the threat scan never discards an
already-found threat. -/
theorem threatPredStep_some {d : Dinosaur} {acc : Option Vec3 × Scalar} (other : Dinosaur)
    (h : acc.1.isSome = true) : (threatScanPredStep d acc other).1.isSome = true := by
  simp only [threatScanPredStep]
  split
  · exact h
  · split
    · split
      · rfl
      · exact h
    · exact h

/-- The hand loop step of the threat scan never discards a found threat. -/
theorem threatHandStep_some {C : Config} {d : Dinosaur} {acc : Option Vec3 × Scalar}
    (hand : Vec3) (h : acc.1.isSome = true) :
    (threatScanHandStep C d acc hand).1.isSome = true := by
  simp only [threatScanHandStep]
  split
  · rfl
  · exact h

/-- The predator loop preserves foundness. -/
theorem threatPredFold_some {d : Dinosaur} (l : List Dinosaur) :
    ∀ acc : Option Vec3 × Scalar, acc.1.isSome = true →
      (l.foldl (threatScanPredStep d) acc).1.isSome = true := by
  induction l with
  | nil => exact fun _ h => h
  | cons p t ih => exact fun acc h => ih _ (threatPredStep_some p h)

/-- The hand loop preserves foundness. -/
theorem threatHandFold_some {C : Config} {d : Dinosaur} (l : List Vec3) :
    ∀ acc : Option Vec3 × Scalar, acc.1.isSome = true →
      (l.foldl (threatScanHandStep C d) acc).1.isSome = true := by
  induction l with
  | nil => exact fun _ h => h
  | cons p t ih => exact fun acc h => ih _ (threatHandStep_some p h)

/-- The predator loop step never increases the running distance. -/
theorem threatPredStep_le {d : Dinosaur} {acc : Option Vec3 × Scalar} (other : Dinosaur) :
    (threatScanPredStep d acc other).2 ≤ acc.2 := by
  simp only [threatScanPredStep]
  split
  · exact le_refl _
  · split
    · split
      · rename_i hcond
        exact le_of_lt hcond.2
      · exact le_refl _
    · exact le_refl _

/-- The hand loop step never increases the running distance. -/
theorem threatHandStep_le {C : Config} {d : Dinosaur} {acc : Option Vec3 × Scalar}
    (hand : Vec3) : (threatScanHandStep C d acc hand).2 ≤ acc.2 := by
  simp only [threatScanHandStep]
  split
  · rename_i hcond
    exact le_of_lt hcond.2
  · exact le_refl _

/-- The predator loop never increases the running distance. -/
theorem threatPredFold_le {d : Dinosaur} (l : List Dinosaur) :
    ∀ acc : Option Vec3 × Scalar, (l.foldl (threatScanPredStep d) acc).2 ≤ acc.2 := by
  induction l with
  | nil => exact fun _ => le_refl _
  | cons p t ih => exact fun acc => le_trans (ih _) (threatPredStep_le p)

/-- The hand loop never increases the running distance. -/
theorem threatHandFold_le {C : Config} {d : Dinosaur} (l : List Vec3) :
    ∀ acc : Option Vec3 × Scalar, (l.foldl (threatScanHandStep C d) acc).2 ≤ acc.2 := by
  induction l with
  | nil => exact fun _ => le_refl _
  | cons p t ih => exact fun acc => le_trans (ih _) (threatHandStep_le p)

/-- After scanning, the running distance is bounded by the distance of
every qualifying predator candidate in the list. -/
theorem threatPredFold_min {d : Dinosaur} (l : List Dinosaur) :
    ∀ acc : Option Vec3 × Scalar, ∀ p ∈ l, p.isAlive = true → p.id ≠ d.id →
      isPredator p.species = true →
      Vec3.mag2 (Vec3.sub p.position d.position) <
        (getSpeciesInfo d.species).sightRange * (getSpeciesInfo d.species).sightRange →
      (l.foldl (threatScanPredStep d) acc).2 ≤ Vec3.mag2 (Vec3.sub p.position d.position) := by
  induction l with
  | nil =>
    intro acc p hp
    exact absurd hp (List.not_mem_nil p)
  | cons q t ih =>
    intro acc p hp halive hid hpred hdist
    rcases List.mem_cons.mp hp with rfl | hp'
    · refine le_trans (threatPredFold_le t _) ?_
      simp only [threatScanPredStep]
      rw [if_neg (by simp [halive, hid]), if_pos hpred]
      split
      · exact le_refl _
      · rename_i hcond
        exact le_of_not_lt (fun hlt => hcond ⟨hdist, hlt⟩)
    · exact ih _ p hp' halive hid hpred hdist

/-- After scanning, the running distance is bounded by the distance of
every hand candidate within the hand-flee radius. -/
theorem threatHandFold_min {C : Config} {d : Dinosaur} (l : List Vec3) :
    ∀ acc : Option Vec3 × Scalar, ∀ h ∈ l,
      Vec3.mag2 (Vec3.sub h d.position) < C.handFleeRadius * C.handFleeRadius →
      (l.foldl (threatScanHandStep C d) acc).2 ≤ Vec3.mag2 (Vec3.sub h d.position) := by
  induction l with
  | nil =>
    intro acc h hh
    exact absurd hh (List.not_mem_nil h)
  | cons q t ih =>
    intro acc h hh hdist
    rcases List.mem_cons.mp hh with rfl | hh'
    · refine le_trans (threatHandFold_le t _) ?_
      simp only [threatScanHandStep]
      split
      · exact le_refl _
      · rename_i hcond
        exact le_of_not_lt (fun hlt => hcond ⟨hdist, hlt⟩)
    · exact ih _ h hh' hdist

/-- The predator loop step preserves the found-or-initial invariant. -/
theorem threatPredStep_inv {d : Dinosaur} {acc : Option Vec3 × Scalar} (other : Dinosaur)
    (h : acc.1.isSome = true ∨ acc.2 = 999999 * 999999) :
    (threatScanPredStep d acc other).1.isSome = true ∨
      (threatScanPredStep d acc other).2 = 999999 * 999999 := by
  simp only [threatScanPredStep]
  split
  · exact h
  · split
    · split
      · exact Or.inl rfl
      · exact h
    · exact h

/-- A qualifying predator candidate in the list forces the scan to find a
threat. -/
theorem threatPredFold_some_of_candidate {d : Dinosaur} (l : List Dinosaur) :
    ∀ acc : Option Vec3 × Scalar, (acc.1.isSome = true ∨ acc.2 = 999999 * 999999) →
      (∃ p ∈ l, p.isAlive = true ∧ p.id ≠ d.id ∧ isPredator p.species = true ∧
        Vec3.mag2 (Vec3.sub p.position d.position) <
          (getSpeciesInfo d.species).sightRange * (getSpeciesInfo d.species).sightRange) →
      (l.foldl (threatScanPredStep d) acc).1.isSome = true := by
  induction l with
  | nil =>
    intro acc _ hex
    rcases hex with ⟨p, hp, _⟩
    exact absurd hp (List.not_mem_nil p)
  | cons q t ih =>
    intro acc hacc hex
    rcases hex with ⟨p, hp, halive, hid, hpred, hdist⟩
    rcases List.mem_cons.mp hp with rfl | hp'
    · apply threatPredFold_some t
      simp only [threatScanPredStep]
      rw [if_neg (by simp [halive, hid]), if_pos hpred]
      split
      · rfl
      · rename_i hcond
        rcases hacc with hsome | hbig
        · exact hsome
        · exfalso
          have hfacts := (speciesRangeFacts d.species).2.2
          have h1 : Vec3.mag2 (Vec3.sub p.position d.position) < 999999 * 999999 := by
            nlinarith [hfacts.1, hfacts.2, hdist]
          exact hcond ⟨hdist, hbig ▸ h1⟩
    · exact ih _ (threatPredStep_inv q hacc) ⟨p, hp', halive, hid, hpred, hdist⟩

/-- `findNearestThreat` when the agent stands on lava: the result is the
agent's own planar position at the lava threshold elevation, with the
fixed near-zero distance 0.01 (squared here), regardless of any other
threat. -/
theorem findNearestThreat_lava (E : Env) (C : Config) (dinos : List Dinosaur)
    (hands : List Vec3) (d : Dinosaur) (h : (queryTerrain E C d.position).isLava = true) :
    findNearestThreat E C dinos hands d =
      (some ⟨d.position.x, d.position.y, C.lavaElevationThreshold⟩, (1/100) * (1/100)) := by
  rw [findNearestThreat, if_pos h]

/-- `findNearestThreat` off lava is the two-loop nearest scan. -/
theorem findNearestThreat_not_lava (E : Env) (C : Config) (dinos : List Dinosaur)
    (hands : List Vec3) (d : Dinosaur) (h : (queryTerrain E C d.position).isLava = false) :
    findNearestThreat E C dinos hands d =
      hands.foldl (threatScanHandStep C d)
        (dinos.foldl (threatScanPredStep d) (none, 999999 * 999999)) := by
  rw [findNearestThreat, if_neg (by simp [h])]

/-- An alive predator strictly within the agent's sight range forces the
threat scan to report a threat. -/
theorem findNearestThreat_some_of_pred (E : Env) (C : Config) (dinos : List Dinosaur)
    (hands : List Vec3) (d : Dinosaur)
    (hp : ∃ p ∈ dinos, p.isAlive = true ∧ p.id ≠ d.id ∧ isPredator p.species = true ∧
      Vec3.mag2 (Vec3.sub p.position d.position) <
        (getSpeciesInfo d.species).sightRange * (getSpeciesInfo d.species).sightRange) :
    (findNearestThreat E C dinos hands d).1.isSome = true := by
  rw [findNearestThreat]
  split
  · rfl
  · exact threatHandFold_some hands _ (threatPredFold_some_of_candidate dinos _ (Or.inr rfl) hp)

/-- The predator loop preserves the found-or-initial invariant. -/
theorem threatPredFold_inv {d : Dinosaur} (l : List Dinosaur) :
    ∀ acc : Option Vec3 × Scalar, (acc.1.isSome = true ∨ acc.2 = 999999 * 999999) →
      (l.foldl (threatScanPredStep d) acc).1.isSome = true ∨
        (l.foldl (threatScanPredStep d) acc).2 = 999999 * 999999 := by
  induction l with
  | nil => exact fun _ h => h
  | cons p t ih => exact fun acc h => ih _ (threatPredStep_inv p h)

/-- A hand candidate within the flee radius forces the scan to find a
threat (when the radius is itself bounded by the 999999 sentinel). -/
theorem threatHandFold_some_of_candidate {C : Config} {d : Dinosaur} (l : List Vec3)
    (hr0 : 0 ≤ C.handFleeRadius) (hr1 : C.handFleeRadius ≤ 999999) :
    ∀ acc : Option Vec3 × Scalar, (acc.1.isSome = true ∨ acc.2 = 999999 * 999999) →
      (∃ h ∈ l, Vec3.mag2 (Vec3.sub h d.position) < C.handFleeRadius * C.handFleeRadius) →
      (l.foldl (threatScanHandStep C d) acc).1.isSome = true := by
  induction l with
  | nil =>
    intro acc _ hex
    rcases hex with ⟨h, hh, _⟩
    exact absurd hh (List.not_mem_nil h)
  | cons q t ih =>
    intro acc hacc hex
    rcases hex with ⟨h, hh, hdist⟩
    rcases List.mem_cons.mp hh with rfl | hh'
    · apply threatHandFold_some t
      simp only [threatScanHandStep]
      split
      · rfl
      · rename_i hcond
        rcases hacc with hsome | hbig
        · exact hsome
        · exfalso
          have h1 : Vec3.mag2 (Vec3.sub h d.position) < 999999 * 999999 := by
            nlinarith [hr0, hr1, hdist]
          exact hcond ⟨hdist, hbig ▸ h1⟩
    · refine ih _ ?_ ⟨h, hh', hdist⟩
      simp only [threatScanHandStep]
      split
      · exact Or.inl rfl
      · exact hacc

/-- C7 (counterexample): the claim "whenever threats from several
categories are present, the one at the smallest distance is selected" is
false on the code: with the agent standing on lava and an alive predator
at squared distance 1/40000 (strictly closer than the lava threat's fixed
squared distance 1/10000), the scan still selects the lava threat at the
agent's own position, not the closer predator. -/
theorem C7_counterexample :
    (findNearestThreat lavaEnv defaultConfig [predOnLava] [] herbOnLava).1 =
      some ⟨0, 0, -10⟩ ∧
    predOnLava.isAlive = true ∧ isPredator predOnLava.species = true ∧
    Vec3.mag2 (Vec3.sub predOnLava.position herbOnLava.position) <
      (getSpeciesInfo herbOnLava.species).sightRange *
        (getSpeciesInfo herbOnLava.species).sightRange ∧
    Vec3.mag2 (Vec3.sub predOnLava.position herbOnLava.position) <
      (findNearestThreat lavaEnv defaultConfig [predOnLava] [] herbOnLava).2 ∧
    some (⟨0, 0, -10⟩ : Vec3) ≠ some predOnLava.position := by
  refine ⟨?_, ?_, ?_, ?_, ?_, ?_⟩ <;> with_unfolding_all decide

/-- C7 (amended): the threat scan selects the nearest by shortest-distance
comparison only among categories (a) alive predators within sight range
and (b) hand threat points within the flee radius; a lava-classified own
position does not compete by distance but unconditionally overrides the
selection with a fixed 0.01-distance threat at the agent's own position.
Distances are carried squared (`mag2`), which preserves all the source's
comparisons. -/
theorem C7_threat_selection (E : Env) (C : Config) (dinos : List Dinosaur)
    (hands : List Vec3) (d : Dinosaur) :
    ((queryTerrain E C d.position).isLava = true →
      findNearestThreat E C dinos hands d =
        (some ⟨d.position.x, d.position.y, C.lavaElevationThreshold⟩, (1/100) * (1/100))) ∧
    ((queryTerrain E C d.position).isLava = false →
      (∀ p ∈ dinos, p.isAlive = true → p.id ≠ d.id → isPredator p.species = true →
        Vec3.mag2 (Vec3.sub p.position d.position) <
          (getSpeciesInfo d.species).sightRange * (getSpeciesInfo d.species).sightRange →
        (findNearestThreat E C dinos hands d).1.isSome = true ∧
        (findNearestThreat E C dinos hands d).2 ≤
          Vec3.mag2 (Vec3.sub p.position d.position)) ∧
      (0 ≤ C.handFleeRadius → C.handFleeRadius ≤ 999999 →
        ∀ h ∈ hands, Vec3.mag2 (Vec3.sub h d.position) <
            C.handFleeRadius * C.handFleeRadius →
          (findNearestThreat E C dinos hands d).1.isSome = true ∧
          (findNearestThreat E C dinos hands d).2 ≤
            Vec3.mag2 (Vec3.sub h d.position))) := by
  refine ⟨findNearestThreat_lava E C dinos hands d, fun hl => ?_⟩
  rw [findNearestThreat_not_lava E C dinos hands d hl]
  constructor
  · intro p hp halive hid hpred hdist
    exact ⟨threatHandFold_some hands _ (threatPredFold_some_of_candidate dinos _ (Or.inr rfl)
        ⟨p, hp, halive, hid, hpred, hdist⟩),
      le_trans (threatHandFold_le hands _)
        (threatPredFold_min dinos _ p hp halive hid hpred hdist)⟩
  · intro hr0 hr1 h hh hdist
    exact ⟨threatHandFold_some_of_candidate hands hr0 hr1 _
        (threatPredFold_inv dinos _ (Or.inr rfl)) ⟨h, hh, hdist⟩,
      threatHandFold_min hands _ h hh hdist⟩

/-- C7 (witness): the amended theorem applied concretely: the lava
override fires for the on-lava herbivore fixture. -/
theorem C7_witness :
    (findNearestThreat lavaEnv defaultConfig [predOnLava] [] herbOnLava).1 =
      some ⟨0, 0, -10⟩ ∧
    (findNearestThreat lavaEnv defaultConfig [predOnLava] [] herbOnLava).2 =
      (1/100) * (1/100) := by
  have h := (C7_threat_selection lavaEnv defaultConfig [predOnLava] [] herbOnLava).1
    (by with_unfolding_all decide)
  rw [h]
  exact ⟨by with_unfolding_all decide, rfl⟩

/-- The avoidance blend touches only the velocity field. -/
theorem applyAvoidance_fields (E : Env) (C : Config) (x : Dinosaur) :
    (applyAvoidance E C x).species = x.species ∧ (applyAvoidance E C x).id = x.id ∧
    (applyAvoidance E C x).aiState = x.aiState ∧
    (applyAvoidance E C x).stateTimer = x.stateTimer ∧
    (applyAvoidance E C x).currentAction = x.currentAction ∧
    (applyAvoidance E C x).isAlive = x.isAlive ∧
    (applyAvoidance E C x).isVisible = x.isVisible ∧
    (applyAvoidance E C x).alpha = x.alpha ∧
    (applyAvoidance E C x).position = x.position ∧
    (applyAvoidance E C x).targetDinoId = x.targetDinoId := by
  rw [applyAvoidance]
  split
  · exact ⟨rfl, rfl, rfl, rfl, rfl, rfl, rfl, rfl, rfl, rfl⟩
  · exact ⟨rfl, rfl, rfl, rfl, rfl, rfl, rfl, rfl, rfl, rfl⟩

/-- The avoidance blend adds the scaled avoidance vector exactly when its
squared magnitude exceeds the (squared) 0.001 threshold. -/
theorem applyAvoidance_velocity (E : Env) (C : Config) (x : Dinosaur) :
    (Vec3.mag2 (calculateAvoidanceVector E C x) > (1/1000) * (1/1000) →
      (applyAvoidance E C x).velocity = Vec3.add x.velocity
        (Vec3.smul ((getSpeciesInfo x.species).walkSpeed * (1/2))
          (calculateAvoidanceVector E C x))) ∧
    (¬(Vec3.mag2 (calculateAvoidanceVector E C x) > (1/1000) * (1/1000)) →
      (applyAvoidance E C x).velocity = x.velocity) := by
  rw [applyAvoidance]
  constructor
  · intro h
    rw [if_pos h]
  · intro h
    rw [if_neg h]

/-- An element of a list other than the element at the written index
survives a `set`. -/
theorem mem_set_of_ne {l : List Dinosaur} {i : ℕ} {d0 p : Dinosaur} (x : Dinosaur)
    (hget : l[i]? = some d0) (hne : p ≠ d0) (hp : p ∈ l) : p ∈ l.set i x := by
  rcases List.mem_iff_getElem?.mp hp with ⟨j, hj⟩
  have hij : i ≠ j := by
    intro h
    rw [h] at hget
    rw [hj] at hget
    exact hne (Option.some.inj hget)
  exact List.mem_iff_getElem?.mpr ⟨j, by rw [List.getElem?_set_ne hij]; exact hj⟩

/-- C2 (amended): an alive herbivore with some other alive predator
strictly inside its sight range ends its AI tick (and hence the full
AI/Animation/Movement tick, which never changes the AI state of a Fleeing
agent) in state Fleeing with its state timer reset to zero and its action
set to Run, regardless of its prior state; its velocity is the jittered,
normalized flee direction times runSpeed — plus, whenever the avoidance
vector is non-negligible, the additive avoidance blend walkSpeed × 0.5 ×
avoidance (the original claim omits the blend). -/
theorem C2_herbivore_flees (E : Env) (C : Config) (dt : Scalar) (hands : List Vec3)
    (dinos : List Dinosaur) (i σ : ℕ) (d0 : Dinosaur)
    (hget : dinos[i]? = some d0) (halive : d0.isAlive = true)
    (hherb : isHerbivore d0.species = true)
    (hthreat : ∃ p ∈ dinos, p.isAlive = true ∧ p.id ≠ d0.id ∧ isPredator p.species = true ∧
      Vec3.mag2 (Vec3.sub p.position d0.position) <
        (getSpeciesInfo d0.species).sightRange * (getSpeciesInfo d0.species).sightRange) :
    ∃ tp d', (updateDinosaurAI E C dt hands dinos i σ).1[i]? = some d' ∧
      d' = applyAvoidance E C
        (herbFlee E { d0 with stateTimer := d0.stateTimer + dt } tp σ).1 ∧
      d'.aiState = .FLEEING ∧ d'.stateTimer = 0 ∧ d'.currentAction = .RUN ∧
      (¬(Vec3.mag2 (calculateAvoidanceVector E C
          (herbFlee E { d0 with stateTimer := d0.stateTimer + dt } tp σ).1) >
            (1/1000) * (1/1000)) →
        d'.velocity = Vec3.smul (getSpeciesInfo d0.species).runSpeed
          (fleeDirection E { d0 with stateTimer := d0.stateTimer + dt } tp σ)) ∧
      (Vec3.mag2 (calculateAvoidanceVector E C
          (herbFlee E { d0 with stateTimer := d0.stateTimer + dt } tp σ).1) >
            (1/1000) * (1/1000) →
        d'.velocity = Vec3.add
          (Vec3.smul (getSpeciesInfo d0.species).runSpeed
            (fleeDirection E { d0 with stateTimer := d0.stateTimer + dt } tp σ))
          (Vec3.smul ((getSpeciesInfo d0.species).walkSpeed * (1/2))
            (calculateAvoidanceVector E C
              (herbFlee E { d0 with stateTimer := d0.stateTimer + dt } tp σ).1))) := by
  have hlen : i < dinos.length := by
    rcases List.getElem?_eq_some_iff.mp hget with ⟨h, _⟩
    exact h
  rcases hthreat with ⟨p, hp, hpalive, hpid, hppred, hpdist⟩
  have hpd0 : p ≠ d0 := by
    intro h
    rw [h, herb_not_pred _ hherb] at hppred
    exact Bool.false_ne_true hppred
  have hmem : p ∈ dinos.set i { d0 with stateTimer := d0.stateTimer + dt } :=
    mem_set_of_ne _ hget hpd0 hp
  have hsome := findNearestThreat_some_of_pred E C
    (dinos.set i { d0 with stateTimer := d0.stateTimer + dt }) hands
    { d0 with stateTimer := d0.stateTimer + dt }
    ⟨p, hmem, hpalive, hpid, hppred, hpdist⟩
  rcases Option.isSome_iff_exists.mp hsome with ⟨tp, htp⟩
  refine ⟨tp, applyAvoidance E C
    (herbFlee E { d0 with stateTimer := d0.stateTimer + dt } tp σ).1, ?_, rfl, ?_, ?_, ?_, ?_, ?_⟩
  · simp only [updateDinosaurAI, hget]
    rw [if_neg (by rw [halive]; exact fun hc => nomatch hc), if_pos hherb, htp]
    rw [List.getElem?_set_self (by simpa using hlen)]
  · rw [(applyAvoidance_fields E C _).2.2.1]
    rfl
  · rw [(applyAvoidance_fields E C _).2.2.2.1]
    rfl
  · rw [(applyAvoidance_fields E C _).2.2.2.2.1]
    rfl
  · intro h
    rw [(applyAvoidance_velocity E C _).2 h]
    rfl
  · intro h
    rw [(applyAvoidance_velocity E C _).1 h]
    rfl

/-- C2 (witness): the amended theorem applied to a concrete herbivore
inside the boundary margin with a live predator 0.01 away. -/
theorem C2_witness :
    ∃ d', (updateDinosaurAI flatEnv defaultConfig (1/10) [] [predNearWall, herbAtWall]
        1 0).1[1]? = some d' ∧
      d'.aiState = DinosaurAIState.FLEEING ∧ d'.stateTimer = 0 := by
  obtain ⟨tp, d', hg, _, hst, hti, _⟩ := C2_herbivore_flees flatEnv defaultConfig (1/10) []
    [predNearWall, herbAtWall] 1 0 herbAtWall (by with_unfolding_all decide)
    (by with_unfolding_all decide) (by with_unfolding_all decide)
    ⟨predNearWall, List.mem_cons_self _ _, by with_unfolding_all decide,
      by with_unfolding_all decide, by with_unfolding_all decide, by with_unfolding_all decide⟩
  exact ⟨d', hg, hst, hti⟩

/-- C2 (counterexample): the claim "its velocity is the (jittered,
normalized) flee direction away from the threat times runSpeed" is false
on the code: for a herbivore standing inside the boundary avoidance
margin, the tick ends in Fleeing but with velocity (5, 0, 0) — the flee
velocity (4, 0, 0) plus the additive avoidance blend — not the claimed
flee velocity alone. -/
theorem C2_counterexample :
    ((updateDinosaurAI flatEnv defaultConfig (1/10) [] [predNearWall, herbAtWall]
        1 0).1.getD 1 baseDino).aiState = DinosaurAIState.FLEEING ∧
    ((updateDinosaurAI flatEnv defaultConfig (1/10) [] [predNearWall, herbAtWall]
        1 0).1.getD 1 baseDino).velocity = ⟨5, 0, 0⟩ ∧
    Vec3.smul (getSpeciesInfo herbAtWall.species).runSpeed
      (fleeDirection flatEnv { herbAtWall with stateTimer := herbAtWall.stateTimer + 1/10 }
        predNearWall.position 0) = ⟨4, 0, 0⟩ ∧
    (⟨5, 0, 0⟩ : Vec3) ≠ ⟨4, 0, 0⟩ := by
  refine ⟨?_, ?_, ?_, ?_⟩ <;> with_unfolding_all decide

/-- The prey loop step never discards a found prey. -/
theorem preyStep_some {pred : Dinosaur} {acc : Option ℕ × Scalar} (other : Dinosaur)
    (h : acc.1.isSome = true) : (preyScanStep pred acc other).1.isSome = true := by
  simp only [preyScanStep]
  split
  · exact h
  · split
    · split
      · rfl
      · exact h
    · exact h

/-- The prey loop preserves foundness. -/
theorem preyFold_some {pred : Dinosaur} (l : List Dinosaur) :
    ∀ acc : Option ℕ × Scalar, acc.1.isSome = true →
      (l.foldl (preyScanStep pred) acc).1.isSome = true := by
  induction l with
  | nil => exact fun _ h => h
  | cons p t ih => exact fun acc h => ih _ (preyStep_some p h)

/-- The prey loop step preserves the found-or-initial invariant. -/
theorem preyStep_inv {pred : Dinosaur} {acc : Option ℕ × Scalar} (other : Dinosaur)
    (h : acc.1.isSome = true ∨ acc.2 = 999999 * 999999) :
    (preyScanStep pred acc other).1.isSome = true ∨
      (preyScanStep pred acc other).2 = 999999 * 999999 := by
  simp only [preyScanStep]
  split
  · exact h
  · split
    · split
      · exact Or.inl rfl
      · exact h
    · exact h

/-- An alive herbivore strictly within the predator's sight range forces
the prey scan to find a prey. -/
theorem preyFold_some_of_candidate {pred : Dinosaur} (l : List Dinosaur) :
    ∀ acc : Option ℕ × Scalar, (acc.1.isSome = true ∨ acc.2 = 999999 * 999999) →
      (∃ p ∈ l, p.isAlive = true ∧ p.id ≠ pred.id ∧ isHerbivore p.species = true ∧
        Vec3.mag2 (Vec3.sub p.position pred.position) <
          (getSpeciesInfo pred.species).sightRange * (getSpeciesInfo pred.species).sightRange) →
      (l.foldl (preyScanStep pred) acc).1.isSome = true := by
  induction l with
  | nil =>
    intro acc _ hex
    rcases hex with ⟨p, hp, _⟩
    exact absurd hp (List.not_mem_nil p)
  | cons q t ih =>
    intro acc hacc hex
    rcases hex with ⟨p, hp, halive, hid, hherb, hdist⟩
    rcases List.mem_cons.mp hp with rfl | hp'
    · apply preyFold_some t
      simp only [preyScanStep]
      rw [if_neg (by simp [halive, hid]), if_pos hherb]
      split
      · rfl
      · rename_i hcond
        rcases hacc with hsome | hbig
        · exact hsome
        · exfalso
          have hfacts := (speciesRangeFacts pred.species).2.2
          have h1 : Vec3.mag2 (Vec3.sub p.position pred.position) < 999999 * 999999 := by
            nlinarith [hfacts.1, hfacts.2, hdist]
          exact hcond ⟨hdist, hbig ▸ h1⟩
    · exact ih _ (preyStep_inv q hacc) ⟨p, hp', halive, hid, hherb, hdist⟩

/-- `findNearestPrey` finds a prey whenever an alive herbivore with a
distinct id lies strictly within sight range. -/
theorem findNearestPrey_some_of_candidate (l : List Dinosaur) (pred : Dinosaur)
    (hex : ∃ p ∈ l, p.isAlive = true ∧ p.id ≠ pred.id ∧ isHerbivore p.species = true ∧
      Vec3.mag2 (Vec3.sub p.position pred.position) <
        (getSpeciesInfo pred.species).sightRange * (getSpeciesInfo pred.species).sightRange) :
    (findNearestPrey l pred).1.isSome = true :=
  preyFold_some_of_candidate l _ (Or.inr rfl) hex

/-- The prey loop step only ever records ids distinct from the scanner's. -/
theorem preyStep_ne {pred : Dinosaur} {acc : Option ℕ × Scalar} (other : Dinosaur)
    (h : ∀ pid, acc.1 = some pid → pid ≠ pred.id) :
    ∀ pid, (preyScanStep pred acc other).1 = some pid → pid ≠ pred.id := by
  simp only [preyScanStep]
  split
  · exact h
  · rename_i hskip
    split
    · split
      · intro pid hpid
        rw [Option.some.inj hpid.symm]
        intro hc
        exact hskip (Or.inr hc)
      · exact h
    · exact h

/-- A found prey id is never the scanning predator's own id. -/
theorem findNearestPrey_ne (l : List Dinosaur) (pred : Dinosaur) :
    ∀ pid, (findNearestPrey l pred).1 = some pid → pid ≠ pred.id := by
  rw [findNearestPrey]
  generalize hacc : ((none, 999999 * 999999) : Option ℕ × Scalar) = acc
  have h0 : ∀ pid, acc.1 = some pid → pid ≠ pred.id := by
    intro pid hpid
    rw [← hacc] at hpid
    exact absurd hpid (by simp)
  clear hacc
  induction l generalizing acc with
  | nil => exact h0
  | cons q t ih => exact ih _ (preyStep_ne q h0)

/-- Every element of the successor registry of a `StepFacts` step
satisfies the registry invariants. -/
theorem StepFacts_all {l l' : List Dinosaur} (h : StepFacts l l') :
    ∀ d ∈ l', InvD d ∧ InvT d := by
  intro d hd
  rcases List.mem_iff_getElem?.mp hd with ⟨k, hk⟩
  have hklen : k < l'.length := (List.getElem?_eq_some_iff.mp hk).1
  have hklen2 : k < l.length := by
    rw [← h.1]
    exact hklen
  rcases h.2 k _ (List.getElem?_eq_getElem hklen2) with ⟨dk', hdk', _, _, hinv, _⟩
  rw [hk] at hdk'
  obtain rfl := Option.some.inj hdk'
  exact hinv

/-- `StepFacts` is reflexive on invariant-satisfying registries. -/
theorem StepFacts_refl {l : List Dinosaur} (hall : ∀ d ∈ l, InvD d ∧ InvT d) :
    StepFacts l l := by
  refine ⟨rfl, fun k dk hk => ⟨dk, hk, rfl, rfl, ?_, fun h _ => h⟩⟩
  exact hall dk (List.mem_iff_getElem?.mpr ⟨k, hk⟩)

/-- `StepFacts` composes. -/
theorem StepFacts_trans {l1 l2 l3 : List Dinosaur} (h12 : StepFacts l1 l2)
    (h23 : StepFacts l2 l3) : StepFacts l1 l3 := by
  refine ⟨h23.1.trans h12.1, fun k dk hk => ?_⟩
  rcases h12.2 k dk hk with ⟨dk2, hk2, hid2, hsp2, _, halive2⟩
  rcases h23.2 k dk2 hk2 with ⟨dk3, hk3, hid3, hsp3, hinv3, halive3⟩
  refine ⟨dk3, hk3, hid3.trans hid2, hsp3.trans hsp2, hinv3, fun ha hh => ?_⟩
  exact halive3 (halive2 ha hh) (by rw [hsp2]; exact hh)

/-- Writing an invariant-satisfying record with the same id and species
at an occupied slot induces a `StepFacts` step. -/
theorem set_stepFacts {l : List Dinosaur} {i : ℕ} {d0 y : Dinosaur}
    (hget : l[i]? = some d0) (hall : ∀ d ∈ l, InvD d ∧ InvT d)
    (hid : y.id = d0.id) (hsp : y.species = d0.species) (hinv : InvD y ∧ InvT y)
    (halive : d0.isAlive = true → isHerbivore d0.species = true → y.isAlive = true) :
    StepFacts l (l.set i y) := by
  refine ⟨List.length_set l i y, fun k dk hk => ?_⟩
  by_cases hki : k = i
  · subst hki
    obtain rfl : dk = d0 := by
      rw [hk] at hget
      exact Option.some.inj hget
    have hklen : k < l.length := (List.getElem?_eq_some_iff.mp hk).1
    exact ⟨y, List.getElem?_set_self hklen, hid, hsp, hinv, halive⟩
  · refine ⟨dk, ?_, rfl, rfl, hall dk (List.mem_iff_getElem?.mpr ⟨k, hk⟩), fun h _ => h⟩
    rw [List.getElem?_set_ne (fun h => hki h.symm)]
    exact hk

/-- The attack-resolution kill loop is a `StepFacts` step — in particular
it never kills an alive herbivore, because such a victim strictly within
twice the attack range (≤ sight range, by the catalog) would have been
found by the prey scan, contradicting the scan's failure that guards this
branch — and it leaves every slot whose id differs from the attacker's
target untouched. -/
theorem resolveAttack_facts (ds : List Dinosaur) (d : Dinosaur)
    (hall : ∀ dk ∈ ds, InvD dk ∧ InvT dk)
    (hnone : (findNearestPrey ds d).1 = none) (ht : d.targetDinoId ≠ d.id) :
    StepFacts ds (resolveAttack ds d) ∧
    ∀ (k : ℕ) (dk : Dinosaur), ds[k]? = some dk → dk.id ≠ d.targetDinoId →
      (resolveAttack ds d)[k]? = some dk := by
  rw [resolveAttack]
  cases hidx : ds.findIdx? (fun p => p.id == d.targetDinoId && p.isAlive) with
  | none =>
    exact ⟨StepFacts_refl hall, fun k dk hk _ => hk⟩
  | some m =>
    obtain ⟨hmlt, hfi⟩ := List.findIdx?_eq_some_iff_findIdx_eq.mp hidx
    have hpm : ds[m]? = some (ds.get ⟨m, hmlt⟩) := List.getElem?_eq_getElem hmlt
    have hw : ds[List.findIdx (fun p => p.id == d.targetDinoId && p.isAlive) ds]? =
        some (ds.get ⟨m, hmlt⟩) := by
      rw [hfi]
      exact hpm
    have hprop := List.findIdx_of_getElem?_eq_some hw
    simp only [Bool.and_eq_true] at hprop
    have hvid : (ds.get ⟨m, hmlt⟩).id = d.targetDinoId := by
      simpa using hprop.1
    have hvalive : (ds.get ⟨m, hmlt⟩).isAlive = true := hprop.2
    have hvmem : ds.get ⟨m, hmlt⟩ ∈ ds := List.mem_iff_getElem?.mpr ⟨m, hpm⟩
    simp only [hpm]
    split
    · rename_i hkill
      have hvherb : isHerbivore (ds.get ⟨m, hmlt⟩).species = false := by
        by_contra hvh
        rw [Bool.not_eq_false] at hvh
        have hcand : (findNearestPrey ds d).1.isSome = true := by
          apply findNearestPrey_some_of_candidate
          refine ⟨ds.get ⟨m, hmlt⟩, hvmem, hvalive, ?_, hvh, ?_⟩
          · rw [hvid]
            exact ht
          · have hf := speciesRangeFacts d.species
            have h2 : (getSpeciesInfo d.species).attackRange * 2 *
                ((getSpeciesInfo d.species).attackRange * 2) ≤
                (getSpeciesInfo d.species).sightRange *
                  (getSpeciesInfo d.species).sightRange := by
              nlinarith [hf.1, hf.2.1, hf.2.2.1]
            exact lt_of_lt_of_le hkill h2
        rw [hnone] at hcand
        exact absurd hcand (by simp)
      constructor
      · refine set_stepFacts hpm hall rfl rfl ⟨⟨?_, ?_⟩, ?_⟩ ?_
        · exact ⟨fun _ => Or.inl rfl, fun _ => rfl⟩
        · intro hv
          have hInvv := (hall _ hvmem).1
          have hdead : (ds.get ⟨m, hmlt⟩).isAlive = false := hInvv.1.mpr (Or.inr (hInvv.2 hv))
          rw [hvalive] at hdead
          exact absurd hdead (by decide)
        · intro hc
          exact absurd hc (by simp)
        · intro _ hherb
          rw [hvherb] at hherb
          exact absurd hherb (by decide)
      · intro k dk hk hkid
        by_cases hkm : k = m
        · subst hkm
          rw [hk] at hpm
          obtain rfl := Option.some.inj hpm
          exact absurd hvid hkid
        · rw [List.getElem?_set_ne (fun h => hkm h.symm)]
          exact hk
    · exact ⟨StepFacts_refl hall, fun k dk hk _ => hk⟩

/-- Registry invariants for an alive, visible agent in a state that is
neither Dying nor Dead, with a sound attack target. -/
theorem invPair_alive (x : Dinosaur) (ha : x.isAlive = true) (hv : x.isVisible = true)
    (hd : x.aiState ≠ .DYING) (hdd : x.aiState ≠ .DEAD)
    (ht : x.aiState = .ATTACKING → x.targetDinoId ≠ x.id) : InvD x ∧ InvT x := by
  refine ⟨⟨⟨?_, ?_⟩, ?_⟩, ht⟩
  · intro h
    rw [ha] at h
    exact absurd h (by decide)
  · intro h
    rcases h with h | h
    · exact absurd h hd
    · exact absurd h hdd
  · intro h
    rw [hv] at h
    exact absurd h (by decide)

/-- An alive agent satisfying the liveness invariant is visible. -/
theorem alive_visible (x : Dinosaur) (hInv : InvD x) (ha : x.isAlive = true) :
    x.isVisible = true := by
  by_contra hv
  rw [Bool.not_eq_true] at hv
  have hdead := hInv.2 hv
  have : x.isAlive = false := hInv.1.mpr (Or.inr hdead)
  rw [ha] at this
  exact absurd this (by decide)

/-- The avoidance blend (velocity-only) preserves the registry
invariants. -/
theorem invPair_applyAvoidance (E : Env) (C : Config) (x : Dinosaur)
    (h : InvD x ∧ InvT x) : InvD (applyAvoidance E C x) ∧ InvT (applyAvoidance E C x) := by
  rw [applyAvoidance]
  split
  · exact h
  · exact h

/-- Field facts of the herbivore no-threat chain: it never changes
liveness, identity, species or visibility; it enters the Attacking state
only if the agent already was Attacking (keeping the target id); and it
enters Dying/Dead only if the agent already was in that state. -/
theorem herbNoThreat_fields (E : Env) (C : Config) (dinos : List Dinosaur) (d : Dinosaur)
    (σ : ℕ) :
    (herbNoThreat E C dinos d σ).1.isAlive = d.isAlive ∧
    (herbNoThreat E C dinos d σ).1.id = d.id ∧
    (herbNoThreat E C dinos d σ).1.species = d.species ∧
    (herbNoThreat E C dinos d σ).1.isVisible = d.isVisible ∧
    ((herbNoThreat E C dinos d σ).1.aiState = .ATTACKING →
      (herbNoThreat E C dinos d σ).1.targetDinoId = d.targetDinoId ∧
      d.aiState = .ATTACKING) ∧
    ((herbNoThreat E C dinos d σ).1.aiState = .DYING ∨
        (herbNoThreat E C dinos d σ).1.aiState = .DEAD →
      d.aiState = (herbNoThreat E C dinos d σ).1.aiState) := by
  simp only [herbNoThreat]
  split_ifs <;>
    refine ⟨rfl, rfl, rfl, rfl, ?_, ?_⟩ <;>
    intro hc <;>
    first
    | (exact ⟨rfl, hc⟩)
    | rfl
    | (simp at hc)

/-- Field facts of the predator hunting branch: liveness, identity,
species and visibility unchanged; the target id becomes the scanned prey
id; the state becomes Hunting or Attacking. -/
theorem predatorHunt_fields (E : Env) (ds : List Dinosaur) (d : Dinosaur) (preyId : ℕ) :
    (predatorHunt E ds d preyId).isAlive = d.isAlive ∧
    (predatorHunt E ds d preyId).id = d.id ∧
    (predatorHunt E ds d preyId).species = d.species ∧
    (predatorHunt E ds d preyId).isVisible = d.isVisible ∧
    (predatorHunt E ds d preyId).targetDinoId = preyId ∧
    ((predatorHunt E ds d preyId).aiState = .HUNTING ∨
      (predatorHunt E ds d preyId).aiState = .ATTACKING) := by
  rw [predatorHunt]
  cases hf : ds.find? (fun p => p.id == preyId) with
  | none => exact ⟨rfl, rfl, rfl, rfl, rfl, Or.inl rfl⟩
  | some prey =>
    dsimp only
    split
    · exact ⟨rfl, rfl, rfl, rfl, rfl, Or.inr rfl⟩
    · exact ⟨rfl, rfl, rfl, rfl, rfl, Or.inl rfl⟩

/-- Field facts of the predator wander branch. -/
theorem predatorWander_fields (E : Env) (C : Config) (d : Dinosaur) (σ : ℕ) :
    (predatorWander E C d σ).1.isAlive = d.isAlive ∧
    (predatorWander E C d σ).1.id = d.id ∧
    (predatorWander E C d σ).1.species = d.species ∧
    (predatorWander E C d σ).1.isVisible = d.isVisible ∧
    ((predatorWander E C d σ).1.aiState = .WANDERING ∨
      ((predatorWander E C d σ).1.aiState = d.aiState ∧
        (predatorWander E C d σ).1.targetDinoId = d.targetDinoId)) := by
  simp only [predatorWander]
  split_ifs <;>
    first
    | exact ⟨rfl, rfl, rfl, rfl, Or.inl rfl⟩
    | exact ⟨rfl, rfl, rfl, rfl, Or.inr ⟨rfl, rfl⟩⟩

/-- The animation driver keeps identity, species and liveness, and
preserves the registry invariants. -/
theorem updateDinosaurAnimation_facts (E : Env) (C : Config) (dt : Scalar) (x : Dinosaur)
    (hx : InvD x ∧ InvT x) :
    (updateDinosaurAnimation E C dt x).id = x.id ∧
    (updateDinosaurAnimation E C dt x).species = x.species ∧
    (updateDinosaurAnimation E C dt x).isAlive = x.isAlive ∧
    (InvD (updateDinosaurAnimation E C dt x) ∧ InvT (updateDinosaurAnimation E C dt x)) := by
  rw [updateDinosaurAnimation]
  by_cases h0 : x.aiState = .DYING
  · have halive : x.isAlive = false := hx.1.1.mpr (Or.inl h0)
    rw [if_pos h0]
    dsimp only
    split_ifs with h1 h2 h3
    · refine ⟨rfl, rfl, rfl, ⟨⟨?_, ?_⟩, ?_⟩⟩
      · exact iff_of_true halive (Or.inr rfl)
      · exact fun _ => rfl
      · intro hc
        exact absurd hc (by simp)
    · exact ⟨rfl, rfl, rfl, hx.1, hx.2⟩
    · exact ⟨rfl, rfl, rfl, hx.1, hx.2⟩
    · exact ⟨rfl, rfl, rfl, hx.1, hx.2⟩
  · rw [if_neg h0]
    dsimp only
    split_ifs <;> exact ⟨rfl, rfl, rfl, hx.1, hx.2⟩

/-- The movement integrator keeps identity, species and liveness, and
preserves the registry invariants (it changes only the position). -/
theorem updateDinosaurMovement_facts (E : Env) (C : Config) (dt : Scalar) (x : Dinosaur)
    (hx : InvD x ∧ InvT x) :
    (updateDinosaurMovement E C dt x).id = x.id ∧
    (updateDinosaurMovement E C dt x).species = x.species ∧
    (updateDinosaurMovement E C dt x).isAlive = x.isAlive ∧
    (InvD (updateDinosaurMovement E C dt x) ∧ InvT (updateDinosaurMovement E C dt x)) := by
  rw [updateDinosaurMovement]
  dsimp only
  split_ifs <;> exact ⟨rfl, rfl, rfl, hx.1, hx.2⟩

/-- One AI step is a `StepFacts` step: it keeps every slot's id and
species, preserves the registry invariants, and never turns an alive
herbivore into a dead one (the kill branch cannot fire on a herbivore). -/
theorem updateDinosaurAI_stepFacts (E : Env) (C : Config) (dt : Scalar) (hands : List Vec3)
    (dinos : List Dinosaur) (i σ : ℕ) (hall : ∀ d ∈ dinos, InvD d ∧ InvT d) :
    StepFacts dinos (updateDinosaurAI E C dt hands dinos i σ).1 := by
  cases hget0 : dinos[i]? with
  | none =>
    simp only [updateDinosaurAI, hget0]
    exact StepFacts_refl hall
  | some d0 =>
    have hInv0 : InvD d0 ∧ InvT d0 := hall d0 (List.mem_iff_getElem?.mpr ⟨i, hget0⟩)
    have hilen : i < dinos.length := (List.getElem?_eq_some_iff.mp hget0).1
    simp only [updateDinosaurAI, hget0]
    by_cases halive : d0.isAlive = false
    · rw [if_pos halive]
      by_cases hdead : d0.aiState = DinosaurAIState.DEAD
      · rw [if_pos hdead]
        by_cases htimer : d0.respawnTimer - dt ≤ 0
        · rw [if_pos htimer]
          rcases hsp : findValidSpawnPosition E C σ with ⟨newPos, σ1⟩
          simp only [hsp]
          refine set_stepFacts hget0 hall rfl rfl ⟨⟨⟨?_, ?_⟩, ?_⟩, ?_⟩ fun _ _ => rfl
          · intro h
            simp at h
          · intro h
            rcases h with h | h <;> simp at h
          · intro h
            simp at h
          · intro h
            simp at h
        · rw [if_neg htimer]
          refine set_stepFacts hget0 hall rfl rfl ⟨hInv0.1, hInv0.2⟩ ?_
          intro h _
          rw [h] at halive
          exact absurd halive (by simp)
      · rw [if_neg hdead]
        exact StepFacts_refl hall
    · rw [if_neg halive]
      have halive' : d0.isAlive = true := by
        revert halive
        cases d0.isAlive <;> simp
      have hvis' : d0.isVisible = true := alive_visible d0 hInv0.1 halive'
      have hnd : d0.aiState ≠ DinosaurAIState.DYING := by
        intro h
        have hfalse := hInv0.1.1.mpr (Or.inl h)
        rw [halive'] at hfalse
        exact absurd hfalse (by decide)
      have hndd : d0.aiState ≠ DinosaurAIState.DEAD := by
        intro h
        have hfalse := hInv0.1.1.mpr (Or.inr h)
        rw [halive'] at hfalse
        exact absurd hfalse (by decide)
      have hInvBump : InvD { d0 with stateTimer := d0.stateTimer + dt } ∧
          InvT { d0 with stateTimer := d0.stateTimer + dt } := hInv0
      have hds : StepFacts dinos (dinos.set i { d0 with stateTimer := d0.stateTimer + dt }) :=
        set_stepFacts hget0 hall rfl rfl hInvBump (fun h _ => h)
      have hallds := StepFacts_all hds
      have hgetds : (dinos.set i { d0 with stateTimer := d0.stateTimer + dt })[i]? =
          some { d0 with stateTimer := d0.stateTimer + dt } :=
        List.getElem?_set_self (by simpa using hilen)
      by_cases hherb : isHerbivore d0.species = true
      · rw [if_pos hherb]
        cases hth : (findNearestThreat E C
            (dinos.set i { d0 with stateTimer := d0.stateTimer + dt }) hands
            { d0 with stateTimer := d0.stateTimer + dt }).1 with
        | some tp =>
          refine StepFacts_trans hds (set_stepFacts hgetds hallds
            (applyAvoidance_fields E C _).2.1 (applyAvoidance_fields E C _).1 ?_ ?_)
          · refine invPair_applyAvoidance E C _ (invPair_alive _ halive' hvis' ?_ ?_ ?_)
            · intro h
              simp [herbFlee] at h
            · intro h
              simp [herbFlee] at h
            · intro h
              simp [herbFlee] at h
          · intro _ _
            rw [(applyAvoidance_fields E C _).2.2.2.2.2.1]
            exact halive'
        | none =>
          have hf := herbNoThreat_fields E C
            (dinos.set i { d0 with stateTimer := d0.stateTimer + dt })
            { d0 with stateTimer := d0.stateTimer + dt } σ
          refine StepFacts_trans hds (set_stepFacts hgetds hallds
            ((applyAvoidance_fields E C _).2.1.trans hf.2.1)
            ((applyAvoidance_fields E C _).1.trans hf.2.2.1) ?_ ?_)
          · refine invPair_applyAvoidance E C _
              (invPair_alive _ (hf.1.trans halive') (hf.2.2.2.1.trans hvis') ?_ ?_ ?_)
            · intro h
              exact hnd ((hf.2.2.2.2.2 (Or.inl h)).trans h)
            · intro h
              exact hndd ((hf.2.2.2.2.2 (Or.inr h)).trans h)
            · intro h
              obtain ⟨htid, hatk⟩ := hf.2.2.2.2.1 h
              rw [htid, hf.2.1]
              exact hInv0.2 hatk
          · intro _ _
            rw [(applyAvoidance_fields E C _).2.2.2.2.2.1, hf.1]
            exact halive'
      · rw [if_neg hherb]
        by_cases hlava : (queryTerrain E C d0.position).isLava = true
        · rw [if_pos hlava]
          refine StepFacts_trans hds (set_stepFacts hgetds hallds rfl rfl ?_ fun _ _ => halive')
          refine invPair_alive _ halive' hvis' ?_ ?_ ?_
          · intro h
            simp [predatorLavaFlee] at h
          · intro h
            simp [predatorLavaFlee] at h
          · intro h
            simp [predatorLavaFlee] at h
        · rw [if_neg hlava]
          cases hprey : (findNearestPrey
              (dinos.set i { d0 with stateTimer := d0.stateTimer + dt })
              { d0 with stateTimer := d0.stateTimer + dt }).1 with
          | some preyId =>
            have hpf := predatorHunt_fields E
              (dinos.set i { d0 with stateTimer := d0.stateTimer + dt })
              { d0 with stateTimer := d0.stateTimer + dt } preyId
            have hpne : preyId ≠ d0.id :=
              findNearestPrey_ne _ { d0 with stateTimer := d0.stateTimer + dt } preyId hprey
            refine StepFacts_trans hds (set_stepFacts hgetds hallds
              ((applyAvoidance_fields E C _).2.1.trans hpf.2.1)
              ((applyAvoidance_fields E C _).1.trans hpf.2.2.1) ?_ ?_)
            · refine invPair_applyAvoidance E C _
                (invPair_alive _ (hpf.1.trans halive') (hpf.2.2.2.1.trans hvis') ?_ ?_ ?_)
              · intro h
                rcases hpf.2.2.2.2.2 with hs | hs <;>
                  · have hcontra := hs.symm.trans h
                    simp at hcontra
              · intro h
                rcases hpf.2.2.2.2.2 with hs | hs <;>
                  · have hcontra := hs.symm.trans h
                    simp at hcontra
              · intro _
                rw [hpf.2.2.2.2.1, hpf.2.1]
                exact hpne
            · intro _ _
              rw [(applyAvoidance_fields E C _).2.2.2.2.2.1, hpf.1]
              exact halive'
          | none =>
            by_cases hatk : d0.aiState = DinosaurAIState.ATTACKING
            · rw [if_pos hatk]
              by_cases htimer : d0.stateTimer + dt > 1
              · rw [if_pos htimer]
                have ht : ({ d0 with stateTimer := d0.stateTimer + dt } :
                    Dinosaur).targetDinoId ≠ d0.id := hInv0.2 hatk
                obtain ⟨hra, hra2⟩ := resolveAttack_facts
                  (dinos.set i { d0 with stateTimer := d0.stateTimer + dt })
                  { d0 with stateTimer := d0.stateTimer + dt } hallds hprey ht
                have hi1 : (resolveAttack
                    (dinos.set i { d0 with stateTimer := d0.stateTimer + dt })
                    { d0 with stateTimer := d0.stateTimer + dt })[i]? =
                    some { d0 with stateTimer := d0.stateTimer + dt } :=
                  hra2 i _ hgetds (fun h => ht h.symm)
                rw [hi1]
                simp only [Option.getD_some]
                refine StepFacts_trans (StepFacts_trans hds hra)
                  (set_stepFacts hi1 (StepFacts_all (StepFacts_trans hds hra))
                    (applyAvoidance_fields E C _).2.1 (applyAvoidance_fields E C _).1 ?_ ?_)
                · refine invPair_applyAvoidance E C _
                    (invPair_alive _ halive' hvis' ?_ ?_ ?_)
                  · intro h
                    simp at h
                  · intro h
                    simp at h
                  · intro h
                    simp at h
                · intro _ _
                  rw [(applyAvoidance_fields E C _).2.2.2.2.2.1]
                  exact halive'
              · rw [if_neg htimer]
                refine StepFacts_trans hds (set_stepFacts hgetds hallds
                  (applyAvoidance_fields E C _).2.1 (applyAvoidance_fields E C _).1 ?_ ?_)
                · exact invPair_applyAvoidance E C _ ⟨hInv0.1, hInv0.2⟩
                · intro _ _
                  rw [(applyAvoidance_fields E C _).2.2.2.2.2.1]
                  exact halive'
            · rw [if_neg hatk]
              have hwf := predatorWander_fields E C
                { d0 with stateTimer := d0.stateTimer + dt } σ
              refine StepFacts_trans hds (set_stepFacts hgetds hallds
                ((applyAvoidance_fields E C _).2.1.trans hwf.2.1)
                ((applyAvoidance_fields E C _).1.trans hwf.2.2.1) ?_ ?_)
              · refine invPair_applyAvoidance E C _
                  (invPair_alive _ (hwf.1.trans halive') (hwf.2.2.2.1.trans hvis') ?_ ?_ ?_)
                · intro h
                  rcases hwf.2.2.2.2 with hs | ⟨hs, _⟩
                  · have hcontra := hs.symm.trans h
                    simp at hcontra
                  · exact hnd (hs.symm.trans h)
                · intro h
                  rcases hwf.2.2.2.2 with hs | ⟨hs, _⟩
                  · have hcontra := hs.symm.trans h
                    simp at hcontra
                  · exact hndd (hs.symm.trans h)
                · intro h
                  rcases hwf.2.2.2.2 with hs | ⟨hs, _⟩
                  · have hcontra := hs.symm.trans h
                    simp at hcontra
                  · exact absurd (hs.symm.trans h) hatk
              · intro _ _
                rw [(applyAvoidance_fields E C _).2.2.2.2.2.1, hwf.1]
                exact halive'

/-- One slot's slice of `update` (AI, then animation, then movement at
index `i`) is a `StepFacts` step. -/
theorem tickAt_facts (E : Env) (C : Config) (dt : Scalar) (s : EcoState) (i : ℕ)
    (hall : ∀ d ∈ s.dinos, InvD d ∧ InvT d) :
    StepFacts s.dinos (tickAt E C dt s i).dinos := by
  have hAI : StepFacts s.dinos (updateDinosaurAI E C dt s.hands s.dinos i s.randIdx).1 :=
    updateDinosaurAI_stepFacts E C dt s.hands s.dinos i s.randIdx hall
  have hallAI := StepFacts_all hAI
  show StepFacts s.dinos
    (match ((updateDinosaurAI E C dt s.hands s.dinos i s.randIdx).1)[i]? with
     | some d => ((updateDinosaurAI E C dt s.hands s.dinos i s.randIdx).1).set i
         (updateDinosaurMovement E C dt (updateDinosaurAnimation E C dt d))
     | none => (updateDinosaurAI E C dt s.hands s.dinos i s.randIdx).1)
  cases hget : ((updateDinosaurAI E C dt s.hands s.dinos i s.randIdx).1)[i]? with
  | none =>
    simp only
    exact hAI
  | some d =>
    simp only
    have hd : InvD d ∧ InvT d := hallAI d (List.mem_iff_getElem?.mpr ⟨i, hget⟩)
    have hanim := updateDinosaurAnimation_facts E C dt d hd
    have hmov := updateDinosaurMovement_facts E C dt (updateDinosaurAnimation E C dt d)
      hanim.2.2.2
    refine StepFacts_trans hAI (set_stepFacts hget hallAI
      (hmov.1.trans hanim.1) (hmov.2.1.trans hanim.2.1) hmov.2.2.2 ?_)
    intro ha _
    rw [hmov.2.2.1, hanim.2.2.1]
    exact ha

/-- Folding per-slot ticks over any index list is a `StepFacts` step. -/
theorem foldl_tickAt_facts (E : Env) (C : Config) (dt : Scalar) :
    ∀ (idxs : List ℕ) (s : EcoState), (∀ d ∈ s.dinos, InvD d ∧ InvT d) →
      StepFacts s.dinos (idxs.foldl (tickAt E C dt) s).dinos := by
  intro idxs
  induction idxs with
  | nil =>
    intro s hall
    exact StepFacts_refl hall
  | cons j js ih =>
    intro s hall
    have h1 := tickAt_facts E C dt s j hall
    have h2 := ih (tickAt E C dt s j) (StepFacts_all h1)
    exact StepFacts_trans h1 h2

/-- A full ecosystem tick is a `StepFacts` step: length, ids and species
are preserved, the registry invariants hold afterwards, and no alive
herbivore is turned dead. -/
theorem update_facts (E : Env) (C : Config) (dt : Scalar) (s : EcoState)
    (hall : ∀ d ∈ s.dinos, InvD d ∧ InvT d) :
    StepFacts s.dinos (update E C dt s).dinos :=
  foldl_tickAt_facts E C dt (List.range s.dinos.length) s hall

set_option maxRecDepth 100000 in
/-- C1 (counterexample): in the §8 scenario the predator does enter the
Attacking state within one tick, but after simulating 1.1 seconds (eleven
dt = 0.1 ticks) the herbivore is still alive — the claimed kill never
happens, because the kill branch only runs when the prey scan comes back
empty, and a live prey within 2 × attackRange is always inside the
predator's sight range for every species in the catalog. -/
theorem C1_counterexample :
    (((update flatEnv defaultConfig (1/10)) scenarioStart).dinos.getD 0 baseDino).aiState
      = DinosaurAIState.ATTACKING ∧
    ((((update flatEnv defaultConfig (1/10))^[11] scenarioStart).dinos.getD 1
      baseDino).isAlive = true) := by
  constructor <;> with_unfolding_all decide

/-- C1 (amended): across a full ecosystem tick, an alive herbivore always
stays alive (same id and species, same slot): the prey-kill branch of the
AI step is unreachable for herbivore victims, so no herbivore is ever
marked not alive. -/
theorem C1_herbivores_never_killed (E : Env) (C : Config) (dt : Scalar) (s : EcoState)
    (hall : ∀ d ∈ s.dinos, InvD d ∧ InvT d) (i : ℕ) (d : Dinosaur)
    (hget : s.dinos[i]? = some d) (ha : d.isAlive = true)
    (hherb : isHerbivore d.species = true) :
    ∃ d', (update E C dt s).dinos[i]? = some d' ∧ d'.isAlive = true ∧
      d'.id = d.id ∧ d'.species = d.species := by
  obtain ⟨d', hget', hid, hsp, _, halive⟩ := (update_facts E C dt s hall).2 i d hget
  exact ⟨d', hget', halive ha hherb, hid, hsp⟩

/-- C1 (witness): the amended statement applied to the §8 scenario's
herbivore slot. -/
theorem C1_witness :
    ∃ d', (update flatEnv defaultConfig (1/10) scenarioStart).dinos[1]? = some d' ∧
      d'.isAlive = true ∧ d'.id = (scenarioStart.dinos.getD 1 baseDino).id ∧
      d'.species = (scenarioStart.dinos.getD 1 baseDino).species :=
  C1_herbivores_never_killed flatEnv defaultConfig (1/10) scenarioStart
    (by with_unfolding_all decide) 1 (scenarioStart.dinos.getD 1 baseDino)
    (by with_unfolding_all rfl) (by with_unfolding_all decide)
    (by with_unfolding_all decide)

/-- C6 (witness): the respawn theorem applied to a one-agent registry
holding a Dead agent whose countdown expires this tick. -/
theorem C6_witness :
    ∃ d', (updateDinosaurAI flatEnv defaultConfig (1/10) [] [deadDino] 0 0).1[0]? =
        some d' ∧
      d'.isAlive = true ∧ d'.aiState = .IDLE ∧ d'.isVisible = true ∧ d'.alpha = 1 ∧
      d'.stateTimer = 0 ∧ d'.currentAction = .IDLE ∧
      d'.position = (findValidSpawnPosition flatEnv defaultConfig 0).1 ∧
      d'.position.z = (queryTerrain flatEnv defaultConfig d'.position).elevation :=
  C6_respawn flatEnv defaultConfig (1/10) [] [deadDino] 0 0 deadDino rfl rfl rfl
    (by with_unfolding_all decide)

/-- C8: after a spawn and after a full ecosystem tick (which runs the AI
step with its kill resolution and respawn, the animation step and the
movement step on every slot), every agent satisfies the liveness
invariant: isAlive = false exactly in the Dying and Dead states, and
isVisible = false only in the Dead state. -/
theorem C8_liveness_state_invariant (E : Env) (C : Config) (dt : Scalar)
    (sp : DinosaurSpecies) (pos : Vec3) (s : EcoState)
    (hall : ∀ d ∈ s.dinos, InvD d ∧ InvT d) :
    (∀ d ∈ (spawnDinosaur E C sp pos s).dinos,
      (d.isAlive = false ↔ (d.aiState = .DYING ∨ d.aiState = .DEAD)) ∧
      (d.isVisible = false → d.aiState = .DEAD)) ∧
    (∀ d ∈ (update E C dt s).dinos,
      (d.isAlive = false ↔ (d.aiState = .DYING ∨ d.aiState = .DEAD)) ∧
      (d.isVisible = false → d.aiState = .DEAD)) := by
  constructor
  · intro d hd
    simp only [spawnDinosaur] at hd
    rcases List.mem_append.mp hd with h | h
    · exact (hall d h).1
    · rw [List.mem_singleton.mp h]
      refine ⟨⟨?_, ?_⟩, ?_⟩
      · intro hfalse
        simp at hfalse
      · intro hstate
        rcases hstate with hstate | hstate <;> simp at hstate
      · intro hfalse
        simp at hfalse
  · intro d hd
    exact (StepFacts_all (update_facts E C dt s hall) d hd).1

/-- C8 (witness): the invariant theorem applied to the §8 scenario state. -/
theorem C8_witness :
    (∀ d ∈ (spawnDinosaur flatEnv defaultConfig DinosaurSpecies.GALLIMIMUS
        ⟨1/10, 1/10, 0⟩ scenarioStart).dinos,
      (d.isAlive = false ↔ (d.aiState = .DYING ∨ d.aiState = .DEAD)) ∧
      (d.isVisible = false → d.aiState = .DEAD)) ∧
    (∀ d ∈ (update flatEnv defaultConfig (1/10) scenarioStart).dinos,
      (d.isAlive = false ↔ (d.aiState = .DYING ∨ d.aiState = .DEAD)) ∧
      (d.isVisible = false → d.aiState = .DEAD)) :=
  C8_liveness_state_invariant flatEnv defaultConfig (1/10) DinosaurSpecies.GALLIMIMUS
    ⟨1/10, 1/10, 0⟩ scenarioStart (by with_unfolding_all decide)

end Sarndbox
